import Mathlib

/-!
# Greengrass publisher / subscriber: discovery callback and main control flow

A shallow embedding of `publisher/publisher.cpp` and `subscriber/subscriber.cpp`.

* C strings are represented by the characters before the terminating NUL (`String`),
  a pointer that may be `NULL` by an `Option`.
* The library calls (`network->connect`, `discover`, `connect`, `publish`, `subscribe`,
  `yield`, ...) are external: a run is described by the results the environment gives
  to each call (`Env`) and produces the sequence of calls made (`Event`) together
  with the process exit code.
* `APP_INFO` output is recorded in the trace by its format string only.
* The handler `messageArrived` of the subscriber, which the library runs inside `yield`, only
  prints the message and is not part of the trace.
* The final `while (1)` loop of each `main` is given an iteration budget (`fuel`); a run whose
  budget ends inside the loop has no exit code yet.
-/

set_option autoImplicit false

/-! ## C library functions used by the sources -/

/-- C `strlen`: the number of characters before the terminating NUL. -/
def strlen (s : String) : Nat := s.length

/-- C `isspace` in the "C" locale: space, `\t`, `\n`, `\v`, `\f`, `\r`. -/
def isspace (c : Char) : Bool := c.toNat = 32 || (9 ≤ c.toNat && c.toNat ≤ 13)

/-- C `isdigit`. -/
def isdigit (c : Char) : Bool := 48 ≤ c.toNat && c.toNat ≤ 57

/-- Largest value of a 32-bit `int` / `long`. -/
def INT_MAX : Int := 2147483647

/-- Smallest value of a 32-bit `int` / `long`. -/
def INT_MIN : Int := -2147483648

/-- The digit loop of `strtol` in base 10: consume the leading decimal digits,
accumulating their value onto `acc`. -/
def strtol_digits : List Char → Nat → Nat
  | [], acc => acc
  | c :: cs, acc => if isdigit c then strtol_digits cs (acc * 10 + (c.toNat - 48)) else acc

/-- Out-of-range values are clamped as `strtol` does on a target with 32-bit `long`
(the C standard leaves `atoi` undefined there). -/
def strtol_clamp (v : Int) : Int :=
  if v > INT_MAX then INT_MAX else if v < INT_MIN then INT_MIN else v

/-- C `atoi(s)`, i.e. `(int) strtol(s, NULL, 10)`: skip leading white space, read an
optional sign, then the longest run of decimal digits; `0` when there is none. -/
def atoi (s : String) : Int :=
  match s.data.dropWhile isspace with
  | '-' :: rest => strtol_clamp (-(strtol_digits rest 0 : Int))
  | '+' :: rest => strtol_clamp (strtol_digits rest 0 : Int)
  | rest => strtol_clamp (strtol_digits rest 0 : Int)

/-! ## Library data types (as used by the sources) -/

/-- Modelled from the spec: the library type `cy_linked_list_t` is declared outside the sources.
The spec calls a response an ordered sequence of groups and a core's connections an ordered
sequence of candidates, either possibly empty: a list is the sequence of its nodes' data, front
node first. -/
structure cy_linked_list_t (α : Type) where
  nodes : List α
  deriving DecidableEq

/-- The field `count` of a linked list: the number of its nodes. -/
def cy_linked_list_t.count {α : Type} (l : cy_linked_list_t α) : Nat := l.nodes.length

/-- Modelled from the spec: the library function `cy_linked_list_get_front_node` is not part of
the sources. The spec takes "the first" element and fails "if empty": the node handed back is the
front node, `NULL` (`none`) for an empty list. -/
def cy_linked_list_get_front_node {α : Type} (l : cy_linked_list_t α) : Option α := l.nodes.head?

/-- The enumeration `aws_iot_transport_type_t`; only `AWS_TRANSPORT_MQTT_NATIVE` is named
in the sources. -/
inductive aws_iot_transport_type_t
  | AWS_TRANSPORT_MQTT_NATIVE
  | other (n : Nat)
  deriving DecidableEq

/-- The enumeration of MQTT quality-of-service levels; only `AWS_QOS_ATMOST_ONCE` is named
in the sources. -/
inductive aws_iot_qos_level_t
  | AWS_QOS_ATMOST_ONCE
  | other (n : Nat)
  deriving DecidableEq

open aws_iot_transport_type_t aws_iot_qos_level_t

/-- A candidate connection of a core, `aws_greengrass_core_connection_info_t` (declared outside
the sources): the two fields the callbacks read, both C strings. -/
structure aws_greengrass_core_connection_info_t where
  ip_address : String
  port : String
  deriving DecidableEq

/-- Node payload of the connections list. -/
structure aws_greengrass_core_connection_t where
  info : aws_greengrass_core_connection_info_t
  deriving DecidableEq

/-- Group and core information, `aws_greengrass_core_info_t` (declared outside the sources): the
fields the callbacks read. -/
structure aws_greengrass_core_info_t where
  group_id : String
  thing_arn : String
  root_ca_certificate : String
  connections : cy_linked_list_t aws_greengrass_core_connection_t
  deriving DecidableEq

/-- Node payload of the groups list. -/
structure aws_greengrass_core_t where
  info : aws_greengrass_core_info_t
  deriving DecidableEq

/-- Argument of the discovery callback; `groups` is a pointer and may be `NULL`. -/
structure aws_greengrass_discovery_callback_data_t where
  groups : Option (cy_linked_list_t aws_greengrass_core_t)
  deriving DecidableEq

/-- Modelled from the spec: the declaration of `aws_endpoint_params_t` (aws_client.h) is not
part of the sources. The spec gives an endpoint a transport kind, an address, a port and the
root-certificate bytes and length; `port` and `root_ca_length` hold the `int` and `size_t`
values assigned to them unchanged. -/
structure aws_endpoint_params_t where
  transport : aws_iot_transport_type_t
  uri : Option String
  port : Int
  root_ca : Option String
  root_ca_length : Nat
  deriving DecidableEq

/-- The struct `aws_connect_params_t`, the fields the sources assign by name. -/
structure aws_connect_params_t where
  keep_alive : Nat
  client_id : Option String
  username : Option String
  password : Option String
  peer_cn : Option String
  deriving DecidableEq

/-- The struct `aws_publish_params_t`. -/
structure aws_publish_params_t where
  QoS : aws_iot_qos_level_t
  deriving DecidableEq

/-- Static configuration of `aws_config.h`. -/
structure aws_config where
  AWSIOT_THING_NAME : String
  AWSIOT_CLIENT_ID : String
  AWSIOT_ENDPOINT_ADDRESS : String
  AWSIOT_TOPIC : String
  SSL_CLIENTKEY_PEM : String
  SSL_CLIENTCERT_PEM : String
  SSL_CA_PEM : String
  deriving DecidableEq

/-- Result constants declared in library headers that are not part of the sources. -/
structure result_codes where
  NSAPI_ERROR_OK : Int
  CY_RSLT_SUCCESS : Nat
  CY_RSLT_AWS_ERROR_DISCONNECTED : Nat
  CY_RSLT_AWS_ERROR_BUFFER_OVERFLOW : Nat
  deriving DecidableEq

/-- A call made by the program to its environment, or a line of `APP_INFO` output
(format string only). -/
inductive Event
  | app_info (fmt : String)
  | get_default_instance
  | network_connect
  | get_ip_address
  | new_client (thing_name key : String) (key_len : Nat) (cert : String) (cert_len : Nat)
  | delete_client
  | discover (transport : aws_iot_transport_type_t) (address root_ca : String) (root_ca_len : Nat)
  | create_endpoint (ep : aws_endpoint_params_t)
  | set_command_timeout (ms : Nat)
  | connect (conn_params : aws_connect_params_t) (endpoint_params : aws_endpoint_params_t)
  | connect_endpoint (ep : Option aws_endpoint_params_t) (conn_params : aws_connect_params_t)
  | publish (topic payload : String) (len : Nat) (params : aws_publish_params_t)
  | subscribe (ep : Option aws_endpoint_params_t) (topic : String) (qos : aws_iot_qos_level_t)
  | yield (timeout : Nat)
  | wait_us (us : Nat)
  | wait_ms (ms : Nat)
  deriving DecidableEq


/-- Results the environment gives to the external calls of one run. -/
structure Env where
  /-- Static configuration strings. -/
  config : aws_config
  /-- Library result constants. -/
  codes : result_codes
  /-- Status returned by the `(i+1)`-th call of `network->connect()`. -/
  network_connect : Nat → Int
  /-- Payloads with which `discover` invokes the callback, in order, before it returns. -/
  discover_callbacks : List aws_greengrass_discovery_callback_data_t
  /-- Result of `discover`. -/
  discover_result : Nat
  /-- Result of `connect`. -/
  connect_result : Nat
  /-- Result of the `(i+1)`-th call of `publish`. -/
  publish_result : Nat → Nat
  /-- Result of `subscribe`. -/
  subscribe_result : Nat
  /-- Result of the `(i+1)`-th call of `yield`. -/
  yield_result : Nat → Nat

/-- What a run has done: the calls it made, in order, and the value returned by `main`
(`none` while the final loop is still running when the iteration budget ends). -/
structure Outcome where
  exit_code : Option Int
  trace : List Event
  deriving DecidableEq

/-- The outcome `o` preceded by the events `es`. -/
def Outcome.after (o : Outcome) (es : List Event) : Outcome := ⟨o.exit_code, es ++ o.trace⟩

/-! ## Code shared verbatim by both programs -/

/-- The network connection loop of both `main`s,
`for ( tries = 0; tries < 3; tries++ ) { net_status = network->connect(); ... }`,
with `n` iterations left (`n = 3 - tries`): the final `net_status` and the calls made. -/
def network_connect_loop (env : Env) : (n : Nat) → (tries : Nat) → (net_status : Int) → Int × List Event
  | 0, _, net_status => (net_status, [])
  | n + 1, tries, _ =>
    let net_status := env.network_connect tries
    if net_status = env.codes.NSAPI_ERROR_OK then
      (net_status, [Event.network_connect])
    else
      let r := network_connect_loop env n (tries + 1) net_status
      (r.1, Event.network_connect :: Event.app_info "Unable to connect to network. Retrying...\r\n" :: r.2)

/-- The condition of the configuration check of both `main`s:
`( strlen(SSL_CLIENTKEY_PEM) | strlen(SSL_CLIENTCERT_PEM) | strlen(SSL_CA_PEM) ) < 64`. -/
def config_check_fails (cfg : aws_config) : Bool :=
  decide ((strlen cfg.SSL_CLIENTKEY_PEM ||| strlen cfg.SSL_CLIENTCERT_PEM ||| strlen cfg.SSL_CA_PEM) < 64)

/-- The macro `AWSIOT_KEEPALIVE_TIMEOUT`. -/
def AWSIOT_KEEPALIVE_TIMEOUT : Nat := 60

/-- The macro `AWSIOT_MESSAGE`. -/
def AWSIOT_MESSAGE : String := "HELLO"

/-- The informational records both callbacks print for the selected core. -/
def core_information_records : List Event :=
  [Event.app_info " ==== Core/Group Information ====\n",
   Event.app_info "%s: %s\n", Event.app_info "%s: %s\n", Event.app_info "%s: %s\n",
   Event.app_info " ==== End of Core/Group Information ====\n"]

namespace publisher

/-- The macro `AWSIOT_TIMEOUT_IN_USEC` of publisher.cpp. -/
def AWSIOT_TIMEOUT_IN_USEC : Nat := 1000 * 1000

/-- The discovery callback of publisher.cpp. It acts on the global `endpoint_params`:
the result is its new value and the output printed. -/
def my_publisher_greengrass_discovery_callback (data : aws_greengrass_discovery_callback_data_t)
    (endpoint_params : aws_endpoint_params_t) : aws_endpoint_params_t × List Event :=
  match data.groups with
  | none => (endpoint_params, [Event.app_info "[Application/AWS] Greengrass discovery Payload is empty\n"])
  | some groups_list =>
    if groups_list.count = 0 then
      (endpoint_params, [Event.app_info "[Application/AWS] Greengrass discovery Payload is empty\n"])
    else
      match cy_linked_list_get_front_node groups_list with
      | none => (endpoint_params, [Event.app_info "[Application/AWS] Greengrass discovery - Node not found\n"])
      | some node =>
        let info := node.info
        match cy_linked_list_get_front_node info.connections with
        | none =>
          (endpoint_params, core_information_records ++
            [Event.app_info "[Application/AWS] Greengrass discovery - Connections not found\n"])
        | some node =>
          let connection := node.info
          ({ transport := AWS_TRANSPORT_MQTT_NATIVE
             uri := some connection.ip_address
             port := atoi connection.port
             root_ca := some info.root_ca_certificate
             root_ca_length := strlen info.root_ca_certificate },
           core_information_records)

/-- The call `client->discover(..., callback)`: the library invokes the callback on each payload
the environment supplies; the global `endpoint_params` is threaded through. -/
def run_discover_callbacks : List aws_greengrass_discovery_callback_data_t → aws_endpoint_params_t →
    aws_endpoint_params_t × List Event
  | [], endpoint_params => (endpoint_params, [])
  | data :: rest, endpoint_params =>
    let r := my_publisher_greengrass_discovery_callback data endpoint_params
    let r2 := run_discover_callbacks rest r.1
    (r2.1, r.2 ++ r2.2)

/-- The loop `while ( 1 ) { ... publish ... }` of `main`, about to make publish call number
`i + 1`, with `fuel` iterations allowed. `client` is the non-NULL result of `new`, so the
guarded `delete client` runs. -/
def publish_loop (env : Env) : (fuel : Nat) → (i : Nat) → Outcome
  | 0, _ => ⟨none, []⟩
  | fuel + 1, i =>
    let publish_params : aws_publish_params_t := { QoS := AWS_QOS_ATMOST_ONCE }
    let result := env.publish_result i
    let call := Event.publish env.config.AWSIOT_TOPIC AWSIOT_MESSAGE (strlen AWSIOT_MESSAGE) publish_params
    if result ≠ env.codes.CY_RSLT_SUCCESS then
      ⟨some 1, [call, Event.app_info "publish to topic failed\r\n", Event.delete_client]⟩
    else
      (publish_loop env fuel (i + 1)).after
        [call, Event.app_info "Published to topic successfully\r\n", Event.wait_us (AWSIOT_TIMEOUT_IN_USEC * 5)]

/-- The function `main` of publisher.cpp, with `fuel` iterations allowed to the publish loop. -/
def main (env : Env) (fuel : Nat) : Outcome :=
  let cfg := env.config
  let endpoint_params : aws_endpoint_params_t :=
    { transport := AWS_TRANSPORT_MQTT_NATIVE, uri := none, port := 0, root_ca := none, root_ca_length := 0 }
  let net := network_connect_loop env 3 0 (-1)
  let net_status := net.1
  let t0 := Event.app_info "Connecting to the network using Wifi...\r\n" :: Event.get_default_instance :: net.2
  if net_status ≠ env.codes.NSAPI_ERROR_OK then
    ⟨some (-1), t0 ++ [Event.app_info "ERROR: Connecting to the network failed (%d)!\r\n"]⟩
  else
    let t1 := t0 ++ [Event.get_ip_address,
      Event.app_info "Connected to the network successfully. IP address: %s\n"]
    if config_check_fails cfg then
      ⟨some (-1), t1 ++ [Event.app_info
        "Please configure SSL_CLIENTKEY_PEM, SSL_CLIENTCERT_PEM and SSL_CA_PEM in aws_config.h file\n"]⟩
    else
      let cb := run_discover_callbacks env.discover_callbacks endpoint_params
      let endpoint_params := cb.1
      let t2 := t1 ++
        [Event.new_client cfg.AWSIOT_THING_NAME cfg.SSL_CLIENTKEY_PEM (strlen cfg.SSL_CLIENTKEY_PEM)
          cfg.SSL_CLIENTCERT_PEM (strlen cfg.SSL_CLIENTCERT_PEM),
         Event.discover AWS_TRANSPORT_MQTT_NATIVE cfg.AWSIOT_ENDPOINT_ADDRESS cfg.SSL_CA_PEM (strlen cfg.SSL_CA_PEM)]
        ++ cb.2
      if env.discover_result ≠ env.codes.CY_RSLT_SUCCESS then
        ⟨some 1, t2 ++ [Event.app_info "Error in discovering node info \n", Event.delete_client]⟩
      else
        let conn_params : aws_connect_params_t :=
          { keep_alive := AWSIOT_KEEPALIVE_TIMEOUT, client_id := some cfg.AWSIOT_THING_NAME,
            username := none, password := none, peer_cn := none }
        let t3 := t2 ++ [Event.app_info "Discovery of Greengrass Core successful\n",
          Event.wait_us (AWSIOT_TIMEOUT_IN_USEC * 1),
          Event.connect conn_params endpoint_params]
        if env.connect_result ≠ env.codes.CY_RSLT_SUCCESS then
          ⟨some 1, t3 ++ [Event.app_info "connection to AWS endpoint failed\r\n", Event.delete_client]⟩
        else
          (publish_loop env fuel 0).after
            (t3 ++ [Event.app_info "Connected to AWS endpoint\r\n", Event.wait_us (AWSIOT_TIMEOUT_IN_USEC * 1)])

end publisher

namespace subscriber

/-- The macro `AWSIOT_TIMEOUT` of subscriber.cpp. -/
def AWSIOT_TIMEOUT : Nat := 1000

/-- The discovery callback of subscriber.cpp. It acts on the global pointer `ep`: the result is
its new value and the calls made. The endpoint object returned by `create_endpoint` is
represented by the arguments it was created from. -/
def my_publisher_greengrass_discovery_callback (data : aws_greengrass_discovery_callback_data_t)
    (ep : Option aws_endpoint_params_t) : Option aws_endpoint_params_t × List Event :=
  match data.groups with
  | none => (ep, [Event.app_info "[Application/AWS] Greengrass discovery Payload is empty\n"])
  | some groups_list =>
    if groups_list.count = 0 then
      (ep, [Event.app_info "[Application/AWS] Greengrass discovery Payload is empty\n"])
    else
      match cy_linked_list_get_front_node groups_list with
      | none => (ep, [Event.app_info "[Application/AWS] Greengrass discovery - Node not found\n"])
      | some node =>
        let info := node.info
        match cy_linked_list_get_front_node info.connections with
        | none =>
          (ep, core_information_records ++
            [Event.app_info "[Application/AWS] Greengrass discovery - Connections not found\n"])
        | some node =>
          let connection := node.info
          let created : aws_endpoint_params_t :=
            { transport := AWS_TRANSPORT_MQTT_NATIVE
              uri := some connection.ip_address
              port := atoi connection.port
              root_ca := some info.root_ca_certificate
              root_ca_length := strlen info.root_ca_certificate }
          (some created, core_information_records ++ [Event.create_endpoint created])

/-- The call `client.discover(..., callback)`: the library invokes the callback on each payload
the environment supplies; the global `ep` is threaded through. -/
def run_discover_callbacks : List aws_greengrass_discovery_callback_data_t → Option aws_endpoint_params_t →
    Option aws_endpoint_params_t × List Event
  | [], ep => (ep, [])
  | data :: rest, ep =>
    let r := my_publisher_greengrass_discovery_callback data ep
    let r2 := run_discover_callbacks rest r.1
    (r2.1, r.2 ++ r2.2)

/-- The loop `while(1) { result = client.yield(AWSIOT_TIMEOUT); ... }` of `main`, about to make
yield call number `i + 1`, with `fuel` iterations allowed. -/
def yield_loop (env : Env) : (fuel : Nat) → (i : Nat) → Outcome
  | 0, _ => ⟨none, []⟩
  | fuel + 1, i =>
    let result := env.yield_result i
    if result ≠ env.codes.CY_RSLT_SUCCESS then
      if result = env.codes.CY_RSLT_AWS_ERROR_DISCONNECTED then
        ⟨some 1, [Event.yield AWSIOT_TIMEOUT, Event.app_info "Disconnected from MQTT broker \n"]⟩
      else if result = env.codes.CY_RSLT_AWS_ERROR_BUFFER_OVERFLOW then
        ⟨some 1, [Event.yield AWSIOT_TIMEOUT,
          Event.app_info "Received message is more than the MAX_MQTT_PACKET_SIZE \n"]⟩
      else
        (yield_loop env fuel (i + 1)).after [Event.yield AWSIOT_TIMEOUT, Event.wait_ms (AWSIOT_TIMEOUT * 1)]
    else
      (yield_loop env fuel (i + 1)).after [Event.yield AWSIOT_TIMEOUT, Event.wait_ms (AWSIOT_TIMEOUT * 1)]

/-- The function `main` of subscriber.cpp, with `fuel` iterations allowed to the yield loop. -/
def main (env : Env) (fuel : Nat) : Outcome :=
  let cfg := env.config
  let ep : Option aws_endpoint_params_t := none
  let net := network_connect_loop env 3 0 (-1)
  let net_status := net.1
  let t0 := Event.app_info "Connecting to the network using Wifi...\r\n" :: Event.get_default_instance :: net.2
  if net_status ≠ env.codes.NSAPI_ERROR_OK then
    ⟨some (-1), t0 ++ [Event.app_info "ERROR: Connecting to the network failed (%d)!\r\n"]⟩
  else
    let t1 := t0 ++ [Event.get_ip_address,
      Event.app_info "Connected to the network successfully. IP address: %s\n"]
    if config_check_fails cfg then
      ⟨some (-1), t1 ++ [Event.app_info
        "Please configure SSL_CLIENTKEY_PEM, SSL_CLIENTCERT_PEM and SSL_CA_PEM in aws_config.h file \n"]⟩
    else
      let cb := run_discover_callbacks env.discover_callbacks ep
      let ep := cb.1
      let t2 := t1 ++
        [Event.new_client cfg.AWSIOT_THING_NAME cfg.SSL_CLIENTKEY_PEM (strlen cfg.SSL_CLIENTKEY_PEM)
          cfg.SSL_CLIENTCERT_PEM (strlen cfg.SSL_CLIENTCERT_PEM),
         Event.discover AWS_TRANSPORT_MQTT_NATIVE cfg.AWSIOT_ENDPOINT_ADDRESS cfg.SSL_CA_PEM (strlen cfg.SSL_CA_PEM)]
        ++ cb.2
      if env.discover_result ≠ env.codes.CY_RSLT_SUCCESS then
        ⟨some 1, t2 ++ [Event.app_info "Error in discovering node info \n"]⟩
      else
        let conn_params : aws_connect_params_t :=
          { keep_alive := AWSIOT_KEEPALIVE_TIMEOUT, client_id := some cfg.AWSIOT_CLIENT_ID,
            username := none, password := none, peer_cn := none }
        let t3 := t2 ++ [Event.app_info " Discovery of Greengrass Core successful \n",
          Event.wait_ms (AWSIOT_TIMEOUT * 1),
          Event.set_command_timeout 5000,
          Event.connect_endpoint ep conn_params]
        if env.connect_result ≠ env.codes.CY_RSLT_SUCCESS then
          ⟨some 1, t3 ++ [Event.app_info "connection to AWS endpoint failed \r\n"]⟩
        else
          let t4 := t3 ++ [Event.app_info "Connected to AWS endpoint \r\n",
            Event.wait_ms (AWSIOT_TIMEOUT * 1),
            Event.subscribe ep cfg.AWSIOT_TOPIC AWS_QOS_ATMOST_ONCE]
          if env.subscribe_result ≠ env.codes.CY_RSLT_SUCCESS then
            ⟨some 1, t4 ++ [Event.app_info "Subscription to MQTT topic failed \n"]⟩
          else
            (yield_loop env fuel 0).after (t4 ++ [Event.app_info "Subscribed to topic successfully \n"])

end subscriber

/-! ## Notions of the specification -/

/-- A decimal numeral: a non-empty string of decimal digits. -/
def is_decimal_numeral (s : String) : Bool := !s.data.isEmpty && s.data.all isdigit

/-- The integer a decimal numeral denotes. -/
def decimal_value (s : String) : Nat := s.data.foldl (fun acc c => acc * 10 + (c.toNat - 48)) 0

/-- The port string holds no number: after leading white space and an optional sign, the
string ends or continues with a character that is not a decimal digit. -/
def has_no_leading_number (s : String) : Bool :=
  match s.data.dropWhile isspace with
  | [] => true
  | c :: rest =>
    if c = '-' ∨ c = '+' then
      match rest with
      | [] => true
      | d :: _ => !isdigit d
    else !isdigit c

/-- A discovery response from which nothing can be selected: the group sequence is absent or
empty, or the first group's core has no candidate connection. -/
def selects_nothing (data : aws_greengrass_discovery_callback_data_t) : Bool :=
  match data.groups with
  | none => true
  | some groups_list =>
    match groups_list.nodes with
    | [] => true
    | g :: _ => g.info.connections.nodes.isEmpty

/-- The zero-valued endpoint `{ AWS_TRANSPORT_MQTT_NATIVE, NULL, 0, NULL, 0 }`. -/
def zero_endpoint : aws_endpoint_params_t :=
  { transport := AWS_TRANSPORT_MQTT_NATIVE, uri := none, port := 0, root_ca := none, root_ca_length := 0 }

/-! ## Reading a trace -/

/-- The steps of the workflow that are calls with a result the program checks. -/
inductive Step
  | network
  | discover
  | connect
  | publish
  | subscribe
  | yield
  deriving DecidableEq

/-- Position of a step in the workflow. -/
def Step.rank : Step → Nat
  | .network => 0
  | .discover => 1
  | .connect => 2
  | .publish => 3
  | .subscribe => 3
  | .yield => 4

/-- The workflow step an event invokes, if any. -/
def Event.step : Event → Option Step
  | .network_connect => some .network
  | .discover _ _ _ _ => some .discover
  | .connect _ _ => some .connect
  | .connect_endpoint _ _ => some .connect
  | .publish _ _ _ _ => some .publish
  | .subscribe _ _ _ => some .subscribe
  | .yield _ => some .yield
  | _ => none

/-- The workflow steps invoked along a trace, in order. -/
def steps (trace : List Event) : List Step := trace.filterMap Event.step

/-- The events of a trace that invoke the step `s`, in order. -/
def calls_of (s : Step) (trace : List Event) : List Event := trace.filter (fun e => e.step = some s)

/-- One of the first three calls of `network->connect()` returns `NSAPI_ERROR_OK`. -/
def network_up (env : Env) : Prop := ∃ i, i < 3 ∧ env.network_connect i = env.codes.NSAPI_ERROR_OK

instance (env : Env) : Decidable (network_up env) := by
  unfold network_up
  infer_instance

/-- Number of calls of `network->connect()` the connection loop makes: it stops at the first
success among the first three results. -/
def network_attempts (env : Env) : Nat :=
  if env.network_connect 0 = env.codes.NSAPI_ERROR_OK then 1
  else if env.network_connect 1 = env.codes.NSAPI_ERROR_OK then 2
  else 3

/-! ## Example inputs -/

/-- The candidate of the end-to-end scenario: `{ip: "10.0.0.5", port: "8883"}`. -/
def example_candidate : aws_greengrass_core_connection_t := ⟨⟨"10.0.0.5", "8883"⟩⟩

/-- A second candidate. -/
def other_candidate : aws_greengrass_core_connection_t := ⟨⟨"192.168.1.7", "8884"⟩⟩

/-- A core whose first candidate is `example_candidate`. -/
def example_core : aws_greengrass_core_t :=
  ⟨⟨"group-1", "arn:core-1", "<pem>", ⟨[example_candidate, other_candidate]⟩⟩⟩

/-- A core of another group. -/
def other_core : aws_greengrass_core_t :=
  ⟨⟨"group-2", "arn:core-2", "<pem-2>", ⟨[other_candidate]⟩⟩⟩

/-- A discovery response with two groups. -/
def example_response : aws_greengrass_discovery_callback_data_t :=
  ⟨some ⟨[example_core, other_core]⟩⟩

/-- A response with the same first core and first candidate, followed by other material. -/
def example_response_variant : aws_greengrass_discovery_callback_data_t :=
  ⟨some ⟨[⟨⟨"group-1", "arn:core-1", "<pem>", ⟨[example_candidate]⟩⟩⟩, other_core, other_core]⟩⟩

/-- A response with an empty group sequence. -/
def empty_response : aws_greengrass_discovery_callback_data_t := ⟨some ⟨[]⟩⟩

/-- A response whose only candidate carries an empty address, the port string "0" and an
empty root certificate. -/
def blank_response : aws_greengrass_discovery_callback_data_t :=
  ⟨some ⟨[⟨⟨"group-1", "arn:core-1", "", ⟨[⟨⟨"", "0"⟩⟩]⟩⟩⟩]⟩⟩

/-- A response whose only candidate carries the port string "12abc". -/
def prefix_port_response : aws_greengrass_discovery_callback_data_t :=
  ⟨some ⟨[⟨⟨"group-1", "arn:core-1", "<pem>", ⟨[⟨⟨"10.0.0.5", "12abc"⟩⟩]⟩⟩⟩]⟩⟩

/-- A response whose only candidate carries the port string "mqtt". -/
def word_port_response : aws_greengrass_discovery_callback_data_t :=
  ⟨some ⟨[⟨⟨"group-1", "arn:core-1", "<pem>", ⟨[⟨⟨"10.0.0.5", "mqtt"⟩⟩]⟩⟩⟩]⟩⟩

/-- Example configuration: three secrets of 64 characters each. -/
def example_config : aws_config :=
  { AWSIOT_THING_NAME := "thing"
    AWSIOT_CLIENT_ID := "client"
    AWSIOT_ENDPOINT_ADDRESS := "discovery.example"
    AWSIOT_TOPIC := "topic"
    SSL_CLIENTKEY_PEM := ⟨List.replicate 64 'k'⟩
    SSL_CLIENTCERT_PEM := ⟨List.replicate 64 'c'⟩
    SSL_CA_PEM := ⟨List.replicate 64 'a'⟩ }

/-- Example configuration with secrets of 63, 5 and 0 characters. -/
def short_config : aws_config :=
  { example_config with
    SSL_CLIENTKEY_PEM := ⟨List.replicate 63 'k'⟩
    SSL_CLIENTCERT_PEM := "short"
    SSL_CA_PEM := "" }

/-- Example values for the result constants. -/
def example_codes : result_codes :=
  { NSAPI_ERROR_OK := 0, CY_RSLT_SUCCESS := 0,
    CY_RSLT_AWS_ERROR_DISCONNECTED := 7, CY_RSLT_AWS_ERROR_BUFFER_OVERFLOW := 9 }

/-- An environment in which the network comes up on the third attempt, discovery hands
`example_response` to the callback, every call succeeds except the second publish, and
`yield` returns success, then an unnamed failure code, then `DISCONNECTED`. -/
def example_env : Env :=
  { config := example_config
    codes := example_codes
    network_connect := fun i => if i < 2 then -3004 else 0
    discover_callbacks := [example_response]
    discover_result := 0
    connect_result := 0
    publish_result := fun i => if i = 1 then 5 else 0
    subscribe_result := 0
    yield_result := fun i => if i = 0 then 0 else if i = 1 then 3 else 7 }

/-- As `example_env`, with a discovery that hands an empty response to the callback. -/
def empty_discovery_env : Env := { example_env with discover_callbacks := [empty_response] }

/-- As `example_env`, with a network that never comes up. -/
def no_network_env : Env := { example_env with network_connect := fun _ => -3004 }

/-- As `example_env`, with the network up at once and secrets that are too short. -/
def short_config_env : Env :=
  { example_env with config := short_config, network_connect := fun _ => 0 }

/-! ## Lemmas on `atoi` -/

theorem strtol_digits_all_digits (cs : List Char) (acc : Nat) (h : cs.all isdigit = true) :
    strtol_digits cs acc = cs.foldl (fun acc c => acc * 10 + (c.toNat - 48)) acc := by
  induction cs generalizing acc with
  | nil => rfl
  | cons c cs ih =>
    simp only [List.all_cons, Bool.and_eq_true] at h
    simp [strtol_digits, h.1, ih _ h.2]

theorem strtol_clamp_of_range (v : Int) (h1 : INT_MIN ≤ v) (h2 : v ≤ INT_MAX) : strtol_clamp v = v := by
  unfold strtol_clamp
  rw [if_neg (by omega), if_neg (by omega)]

theorem isdigit_not_isspace (c : Char) (h : isdigit c = true) : isspace c = false := by
  simp only [isdigit, Bool.and_eq_true, decide_eq_true_eq] at h
  simp only [isspace, Bool.or_eq_false_iff, decide_eq_false_iff_not, Bool.and_eq_false_iff]
  omega

theorem atoi_of_digit_start (c : Char) (cs : List Char) (h : isdigit c = true) :
    atoi ⟨c :: cs⟩ = strtol_clamp (strtol_digits (c :: cs) 0 : Int) := by
  have hs : (c :: cs).dropWhile isspace = c :: cs := by
    simp [List.dropWhile, isdigit_not_isspace c h]
  have hm : c ≠ '-' := by
    rintro rfl
    revert h; decide
  have hp : c ≠ '+' := by
    rintro rfl
    revert h; decide
  unfold atoi
  simp only [hs]
  split
  · rename_i heq
    simp only [List.cons.injEq] at heq
    exact absurd heq.1 hm
  · rename_i heq
    simp only [List.cons.injEq] at heq
    exact absurd heq.1 hp
  · rfl

theorem atoi_decimal_numeral (s : String) (h : is_decimal_numeral s = true)
    (hr : decimal_value s ≤ 2147483647) : atoi s = (decimal_value s : Int) := by
  obtain ⟨cs⟩ := s
  simp only [is_decimal_numeral, Bool.and_eq_true, Bool.not_eq_true', List.isEmpty_eq_false] at h
  obtain ⟨hne, hall⟩ := h
  cases cs with
  | nil => exact absurd rfl hne
  | cons c cs =>
    have hc : isdigit c = true := by
      simp only [List.all_cons, Bool.and_eq_true] at hall
      exact hall.1
    rw [atoi_of_digit_start c cs hc, strtol_digits_all_digits _ _ hall]
    simp only [decimal_value] at hr
    apply strtol_clamp_of_range
    · simp only [INT_MIN]; omega
    · simp only [INT_MAX]; omega

theorem atoi_no_leading_number (s : String) (h : has_no_leading_number s = true) : atoi s = 0 := by
  unfold has_no_leading_number at h
  unfold atoi
  split
  · rename_i rest heq
    rw [heq] at h
    simp only [true_or, if_true] at h
    cases rest with
    | nil => rfl
    | cons d ds =>
      simp only [Bool.not_eq_true'] at h
      simp [strtol_digits, h, strtol_clamp, INT_MAX, INT_MIN]
  · rename_i rest heq
    rw [heq] at h
    simp only [or_true, if_true] at h
    cases rest with
    | nil => rfl
    | cons d ds =>
      simp only [Bool.not_eq_true'] at h
      simp [strtol_digits, h, strtol_clamp, INT_MAX, INT_MIN]
  · rename_i rest hm hp
    cases hr : s.data.dropWhile isspace with
    | nil => rfl
    | cons c cs =>
      rw [hr] at h
      have h1 : c ≠ '-' := fun hc => hm cs (by rw [hr, hc])
      have h2 : c ≠ '+' := fun hc => hp cs (by rw [hr, hc])
      simp only [h1, h2, or_self, if_false, Bool.not_eq_true'] at h
      simp [strtol_digits, h, strtol_clamp, INT_MAX, INT_MIN]

/-! ## The discovery callback -/

theorem publisher_callback_selected (data : aws_greengrass_discovery_callback_data_t)
    (g : aws_greengrass_core_t) (gs : List aws_greengrass_core_t)
    (c : aws_greengrass_core_connection_t) (cs : List aws_greengrass_core_connection_t)
    (st : aws_endpoint_params_t)
    (hg : data.groups = some ⟨g :: gs⟩) (hc : g.info.connections = ⟨c :: cs⟩) :
    publisher.my_publisher_greengrass_discovery_callback data st =
      ({ transport := AWS_TRANSPORT_MQTT_NATIVE
         uri := some c.info.ip_address
         port := atoi c.info.port
         root_ca := some g.info.root_ca_certificate
         root_ca_length := strlen g.info.root_ca_certificate }, core_information_records) := by
  simp [publisher.my_publisher_greengrass_discovery_callback, hg, hc, cy_linked_list_t.count,
    cy_linked_list_get_front_node]

theorem subscriber_callback_selected (data : aws_greengrass_discovery_callback_data_t)
    (g : aws_greengrass_core_t) (gs : List aws_greengrass_core_t)
    (c : aws_greengrass_core_connection_t) (cs : List aws_greengrass_core_connection_t)
    (ep : Option aws_endpoint_params_t)
    (hg : data.groups = some ⟨g :: gs⟩) (hc : g.info.connections = ⟨c :: cs⟩) :
    subscriber.my_publisher_greengrass_discovery_callback data ep =
      (some { transport := AWS_TRANSPORT_MQTT_NATIVE
              uri := some c.info.ip_address
              port := atoi c.info.port
              root_ca := some g.info.root_ca_certificate
              root_ca_length := strlen g.info.root_ca_certificate },
       core_information_records ++ [Event.create_endpoint
         { transport := AWS_TRANSPORT_MQTT_NATIVE
           uri := some c.info.ip_address
           port := atoi c.info.port
           root_ca := some g.info.root_ca_certificate
           root_ca_length := strlen g.info.root_ca_certificate }]) := by
  simp [subscriber.my_publisher_greengrass_discovery_callback, hg, hc, cy_linked_list_t.count,
    cy_linked_list_get_front_node]

theorem publisher_callback_nothing (data : aws_greengrass_discovery_callback_data_t)
    (st : aws_endpoint_params_t) (h : selects_nothing data = true) :
    (publisher.my_publisher_greengrass_discovery_callback data st).1 = st := by
  unfold selects_nothing at h
  unfold publisher.my_publisher_greengrass_discovery_callback
  cases hg : data.groups with
  | none => rfl
  | some gl =>
    obtain ⟨nodes⟩ := gl
    rw [hg] at h
    cases nodes with
    | nil => simp [cy_linked_list_t.count]
    | cons g gs =>
      simp only [List.isEmpty_iff] at h
      simp [cy_linked_list_t.count, cy_linked_list_get_front_node, h]

theorem subscriber_callback_nothing (data : aws_greengrass_discovery_callback_data_t)
    (ep : Option aws_endpoint_params_t) (h : selects_nothing data = true) :
    (subscriber.my_publisher_greengrass_discovery_callback data ep).1 = ep := by
  unfold selects_nothing at h
  unfold subscriber.my_publisher_greengrass_discovery_callback
  cases hg : data.groups with
  | none => rfl
  | some gl =>
    obtain ⟨nodes⟩ := gl
    rw [hg] at h
    cases nodes with
    | nil => simp [cy_linked_list_t.count]
    | cons g gs =>
      simp only [List.isEmpty_iff] at h
      simp [cy_linked_list_t.count, cy_linked_list_get_front_node, h]

/-! ## The network connection loop -/

theorem network_up_iff (env : Env) :
    network_up env ↔ (env.network_connect 0 = env.codes.NSAPI_ERROR_OK ∨
      env.network_connect 1 = env.codes.NSAPI_ERROR_OK ∨
      env.network_connect 2 = env.codes.NSAPI_ERROR_OK) := by
  unfold network_up
  constructor
  · rintro ⟨i, hi, h⟩
    have : i = 0 ∨ i = 1 ∨ i = 2 := by omega
    rcases this with rfl | rfl | rfl
    · exact Or.inl h
    · exact Or.inr (Or.inl h)
    · exact Or.inr (Or.inr h)
  · rintro (h | h | h)
    · exact ⟨0, by omega, h⟩
    · exact ⟨1, by omega, h⟩
    · exact ⟨2, by omega, h⟩

theorem network_connect_loop_status (env : Env) (s : Int) :
    (network_connect_loop env 3 0 s).1 = env.codes.NSAPI_ERROR_OK ↔ network_up env := by
  rw [network_up_iff]
  simp only [network_connect_loop]
  split_ifs with h0 h1 h2 <;> simp_all

theorem network_connect_loop_steps (env : Env) (s : Int) :
    steps (network_connect_loop env 3 0 s).2 = List.replicate (network_attempts env) Step.network := by
  simp only [network_connect_loop, network_attempts]
  split_ifs with h0 h1 h2 <;> rfl

theorem network_connect_loop_no_ip (env : Env) (s : Int) :
    Event.get_ip_address ∉ (network_connect_loop env 3 0 s).2 := by
  simp only [network_connect_loop]
  split_ifs with h0 h1 h2 <;> simp

theorem network_attempts_of_first_success (env : Env) (k : Nat) (hk : 1 ≤ k)
    (hfail : ∀ j, j + 1 < k → env.network_connect j ≠ env.codes.NSAPI_ERROR_OK)
    (hok : env.network_connect (k - 1) = env.codes.NSAPI_ERROR_OK) :
    network_attempts env = min 3 k := by
  unfold network_attempts
  by_cases h0 : env.network_connect 0 = env.codes.NSAPI_ERROR_OK
  · have : k = 1 := by
      by_contra hne
      exact hfail 0 (by omega) h0
    simp [h0, this]
  · by_cases h1 : env.network_connect 1 = env.codes.NSAPI_ERROR_OK
    · have : k = 2 := by
        by_contra hne
        have h2 : 2 < k ∨ k = 1 := by omega
        rcases h2 with h2 | h2
        · exact hfail 1 (by omega) h1
        · subst h2; exact h0 hok
      simp [h0, h1, this]
    · have : 3 ≤ k := by
        by_contra hne
        have h2 : k = 1 ∨ k = 2 := by omega
        rcases h2 with h2 | h2
        · subst h2; exact h0 hok
        · subst h2; exact h1 hok
      simp [h0, h1, this]

theorem network_attempts_of_down (env : Env) (h : ¬ network_up env) : network_attempts env = 3 := by
  rw [network_up_iff] at h
  unfold network_attempts
  simp only [not_or] at h
  simp [h.1, h.2.1]

/-! ## Reading traces -/

theorem steps_append (a b : List Event) : steps (a ++ b) = steps a ++ steps b := by
  simp [steps, List.filterMap_append]

theorem calls_of_append (s : Step) (a b : List Event) :
    calls_of s (a ++ b) = calls_of s a ++ calls_of s b := by
  simp [calls_of, List.filter_append]

theorem steps_eq_nil_of_silent (l : List Event) (h : ∀ e ∈ l, e.step = none) : steps l = [] := by
  induction l with
  | nil => rfl
  | cons e l ih =>
    have he := h e (List.mem_cons_self _ _)
    have hl := ih (fun x hx => h x (List.mem_cons_of_mem _ hx))
    simp only [steps] at hl ⊢
    rw [List.filterMap_cons, he]
    exact hl

theorem calls_of_eq_nil_of_silent (s : Step) (l : List Event) (h : ∀ e ∈ l, e.step = none) :
    calls_of s l = [] := by
  induction l with
  | nil => rfl
  | cons e l ih =>
    have he := h e (List.mem_cons_self _ _)
    have hl := ih (fun x hx => h x (List.mem_cons_of_mem _ hx))
    simp only [calls_of] at hl ⊢
    rw [List.filter_cons, he]
    simpa using hl

theorem core_information_records_silent : ∀ e ∈ core_information_records, e.step = none := by
  intro e he
  simp only [core_information_records, List.mem_cons, List.mem_singleton, List.not_mem_nil,
    or_false] at he
  rcases he with rfl | rfl | rfl | rfl | rfl <;> rfl

theorem publisher_callback_silent (data : aws_greengrass_discovery_callback_data_t)
    (st : aws_endpoint_params_t) :
    ∀ e ∈ (publisher.my_publisher_greengrass_discovery_callback data st).2, e.step = none := by
  intro e he
  unfold publisher.my_publisher_greengrass_discovery_callback at he
  split at he
  · simp only [List.mem_singleton] at he; subst he; rfl
  · split at he
    · simp only [List.mem_singleton] at he; subst he; rfl
    · split at he
      · simp only [List.mem_singleton] at he; subst he; rfl
      · dsimp only at he
        split at he
        · simp only [List.mem_append, List.mem_singleton] at he
          rcases he with he | rfl
          · exact core_information_records_silent e he
          · rfl
        · exact core_information_records_silent e he

theorem subscriber_callback_silent (data : aws_greengrass_discovery_callback_data_t)
    (ep : Option aws_endpoint_params_t) :
    ∀ e ∈ (subscriber.my_publisher_greengrass_discovery_callback data ep).2, e.step = none := by
  intro e he
  unfold subscriber.my_publisher_greengrass_discovery_callback at he
  split at he
  · simp only [List.mem_singleton] at he; subst he; rfl
  · split at he
    · simp only [List.mem_singleton] at he; subst he; rfl
    · split at he
      · simp only [List.mem_singleton] at he; subst he; rfl
      · dsimp only at he
        split at he
        · simp only [List.mem_append, List.mem_singleton] at he
          rcases he with he | rfl
          · exact core_information_records_silent e he
          · rfl
        · simp only [List.mem_append, List.mem_singleton] at he
          rcases he with he | rfl
          · exact core_information_records_silent e he
          · rfl

theorem publisher_callbacks_silent (ds : List aws_greengrass_discovery_callback_data_t)
    (st : aws_endpoint_params_t) :
    ∀ e ∈ (publisher.run_discover_callbacks ds st).2, e.step = none := by
  induction ds generalizing st with
  | nil => intro e he; simp [publisher.run_discover_callbacks] at he
  | cons d ds ih =>
    intro e he
    simp only [publisher.run_discover_callbacks, List.mem_append] at he
    rcases he with he | he
    · exact publisher_callback_silent d st e he
    · exact ih _ e he

theorem subscriber_callbacks_silent (ds : List aws_greengrass_discovery_callback_data_t)
    (ep : Option aws_endpoint_params_t) :
    ∀ e ∈ (subscriber.run_discover_callbacks ds ep).2, e.step = none := by
  induction ds generalizing ep with
  | nil => intro e he; simp [subscriber.run_discover_callbacks] at he
  | cons d ds ih =>
    intro e he
    simp only [subscriber.run_discover_callbacks, List.mem_append] at he
    rcases he with he | he
    · exact subscriber_callback_silent d ep e he
    · exact ih _ e he

theorem publisher_callbacks_nothing (ds : List aws_greengrass_discovery_callback_data_t)
    (st : aws_endpoint_params_t) (h : ∀ d ∈ ds, selects_nothing d = true) :
    (publisher.run_discover_callbacks ds st).1 = st := by
  induction ds generalizing st with
  | nil => rfl
  | cons d ds ih =>
    simp only [publisher.run_discover_callbacks]
    rw [publisher_callback_nothing d st (h d (List.mem_cons_self _ _))]
    exact ih st (fun x hx => h x (List.mem_cons_of_mem _ hx))

/-! ## The configuration check -/

theorem lor_lt_two_pow_left (a b n : Nat) (h : a ||| b < 2 ^ n) : a < 2 ^ n := by
  apply Nat.lt_pow_two_of_testBit
  intro i hi
  have hlt : a ||| b < 2 ^ i := lt_of_lt_of_le h (Nat.pow_le_pow_right (by norm_num) hi)
  have := Nat.testBit_eq_false_of_lt hlt
  rw [Nat.testBit_or, Bool.or_eq_false_iff] at this
  exact this.1
theorem lor_lt_two_pow_right (a b n : Nat) (h : a ||| b < 2 ^ n) : b < 2 ^ n := by
  apply Nat.lt_pow_two_of_testBit
  intro i hi
  have hlt : a ||| b < 2 ^ i := lt_of_lt_of_le h (Nat.pow_le_pow_right (by norm_num) hi)
  have := Nat.testBit_eq_false_of_lt hlt
  rw [Nat.testBit_or, Bool.or_eq_false_iff] at this
  exact this.2
theorem lor3_lt_64_iff (a b c : Nat) : (a ||| b ||| c) < 64 ↔ a < 64 ∧ b < 64 ∧ c < 64 := by
  have e : (64 : Nat) = 2 ^ 6 := by norm_num
  rw [e]
  constructor
  · intro h
    have hab := lor_lt_two_pow_left _ _ _ h
    exact ⟨lor_lt_two_pow_left _ _ _ hab, lor_lt_two_pow_right _ _ _ hab, lor_lt_two_pow_right _ _ _ h⟩
  · rintro ⟨ha, hb, hc⟩
    exact Nat.or_lt_two_pow (Nat.or_lt_two_pow ha hb) hc

/-! ## The publish loop and the yield loop -/

theorem publish_loop_first_failure (env : Env) (m : Nat) :
    ∀ (fuel i : Nat), m < fuel →
      (∀ j, j < m → env.publish_result (i + j) = env.codes.CY_RSLT_SUCCESS) →
      env.publish_result (i + m) ≠ env.codes.CY_RSLT_SUCCESS →
      publisher.publish_loop env fuel i =
        ⟨some 1,
          (List.replicate m
            [Event.publish env.config.AWSIOT_TOPIC "HELLO" 5 ⟨AWS_QOS_ATMOST_ONCE⟩,
             Event.app_info "Published to topic successfully\r\n",
             Event.wait_us 5000000]).flatten ++
          [Event.publish env.config.AWSIOT_TOPIC "HELLO" 5 ⟨AWS_QOS_ATMOST_ONCE⟩,
           Event.app_info "publish to topic failed\r\n", Event.delete_client]⟩ := by
  induction m with
  | zero =>
    intro fuel i hfuel _ hf
    obtain ⟨f, rfl⟩ : ∃ f, fuel = f + 1 := ⟨fuel - 1, by omega⟩
    simp only [Nat.add_zero] at hf
    simp only [publisher.publish_loop, hf, ne_eq, not_false_eq_true, if_true]
    rfl
  | succ m ih =>
    intro fuel i hfuel hs hf
    obtain ⟨f, rfl⟩ : ∃ f, fuel = f + 1 := ⟨fuel - 1, by omega⟩
    have h0 : env.publish_result i = env.codes.CY_RSLT_SUCCESS := by simpa using hs 0 (by omega)
    have hs2 : ∀ j, j < m → env.publish_result (i + 1 + j) = env.codes.CY_RSLT_SUCCESS := by
      intro j hj
      have e : i + 1 + j = i + (j + 1) := by omega
      rw [e]
      exact hs (j + 1) (by omega)
    have hf2 : env.publish_result (i + 1 + m) ≠ env.codes.CY_RSLT_SUCCESS := by
      have e : i + 1 + m = i + (m + 1) := by omega
      rw [e]
      exact hf
    have ih2 := ih f (i + 1) (by omega) hs2 hf2
    simp only [publisher.publish_loop, h0, ne_eq, not_true_eq_false, if_false, ih2, Outcome.after]
    rfl

theorem publish_loop_steps (env : Env) (fuel : Nat) :
    ∀ i, ∀ s ∈ steps (publisher.publish_loop env fuel i).trace, s = Step.publish := by
  induction fuel with
  | zero => intro i s hs; simp [publisher.publish_loop, steps] at hs
  | succ f ih =>
    intro i s hs
    simp only [publisher.publish_loop] at hs
    split_ifs at hs with h
    · simp [steps, Event.step] at hs
      exact hs
    · simp only [Outcome.after, steps_append] at hs
      rcases List.mem_append.mp hs with h1 | h1
      · simp [steps, Event.step] at h1
        exact h1
      · exact ih _ s h1

theorem publish_loop_exit (env : Env) (fuel : Nat) :
    ∀ i code, (publisher.publish_loop env fuel i).exit_code = some code → code = 1 := by
  induction fuel with
  | zero => intro i code h; simp [publisher.publish_loop] at h
  | succ f ih =>
    intro i code h
    simp only [publisher.publish_loop] at h
    split_ifs at h with hr
    · simp at h; exact h.symm
    · exact ih _ code h

theorem yield_loop_first_stop (env : Env) (m : Nat) :
    ∀ (fuel i : Nat), m < fuel →
      env.codes.CY_RSLT_AWS_ERROR_DISCONNECTED ≠ env.codes.CY_RSLT_SUCCESS →
      env.codes.CY_RSLT_AWS_ERROR_BUFFER_OVERFLOW ≠ env.codes.CY_RSLT_SUCCESS →
      (∀ j, j < m → env.yield_result (i + j) ≠ env.codes.CY_RSLT_AWS_ERROR_DISCONNECTED ∧
        env.yield_result (i + j) ≠ env.codes.CY_RSLT_AWS_ERROR_BUFFER_OVERFLOW) →
      (env.yield_result (i + m) = env.codes.CY_RSLT_AWS_ERROR_DISCONNECTED ∨
        env.yield_result (i + m) = env.codes.CY_RSLT_AWS_ERROR_BUFFER_OVERFLOW) →
      subscriber.yield_loop env fuel i =
        ⟨some 1,
          (List.replicate m [Event.yield 1000, Event.wait_ms 1000]).flatten ++
          [Event.yield 1000,
           Event.app_info
            (if env.yield_result (i + m) = env.codes.CY_RSLT_AWS_ERROR_DISCONNECTED
             then "Disconnected from MQTT broker \n"
             else "Received message is more than the MAX_MQTT_PACKET_SIZE \n")]⟩ := by
  induction m with
  | zero =>
    intro fuel i hfuel hd hb _ hf
    obtain ⟨f, rfl⟩ : ∃ f, fuel = f + 1 := ⟨fuel - 1, by omega⟩
    simp only [Nat.add_zero] at hf ⊢
    rcases hf with hf | hf
    · simp [subscriber.yield_loop, hf, hd, subscriber.AWSIOT_TIMEOUT]
    · by_cases hdd : env.yield_result i = env.codes.CY_RSLT_AWS_ERROR_DISCONNECTED
      · simp [subscriber.yield_loop, hdd, hd, subscriber.AWSIOT_TIMEOUT]
      · have hne : env.yield_result i ≠ env.codes.CY_RSLT_SUCCESS := by rw [hf]; exact hb
        simp only [subscriber.yield_loop, hne, hdd, ne_eq, not_false_eq_true, if_true, if_false]
        simp [hf, subscriber.AWSIOT_TIMEOUT]
  | succ m ih =>
    intro fuel i hfuel hd hb hs hf
    obtain ⟨f, rfl⟩ : ∃ f, fuel = f + 1 := ⟨fuel - 1, by omega⟩
    have h0 := hs 0 (by omega)
    simp only [Nat.add_zero] at h0
    have hs2 : ∀ j, j < m → env.yield_result (i + 1 + j) ≠ env.codes.CY_RSLT_AWS_ERROR_DISCONNECTED ∧
        env.yield_result (i + 1 + j) ≠ env.codes.CY_RSLT_AWS_ERROR_BUFFER_OVERFLOW := by
      intro j hj
      have e : i + 1 + j = i + (j + 1) := by omega
      rw [e]
      exact hs (j + 1) (by omega)
    have hf2 : env.yield_result (i + 1 + m) = env.codes.CY_RSLT_AWS_ERROR_DISCONNECTED ∨
        env.yield_result (i + 1 + m) = env.codes.CY_RSLT_AWS_ERROR_BUFFER_OVERFLOW := by
      have e : i + 1 + m = i + (m + 1) := by omega
      rw [e]
      exact hf
    have ih2 := ih f (i + 1) (by omega) hd hb hs2 hf2
    have e : i + 1 + m = i + (m + 1) := by omega
    simp only [subscriber.yield_loop, h0.1, h0.2, if_false, ite_self, ih2, Outcome.after, e]
    simp [subscriber.AWSIOT_TIMEOUT, List.replicate_succ]

theorem yield_loop_steps (env : Env) (fuel : Nat) :
    ∀ i, ∀ s ∈ steps (subscriber.yield_loop env fuel i).trace, s = Step.yield := by
  induction fuel with
  | zero => intro i s hs; simp [subscriber.yield_loop, steps] at hs
  | succ f ih =>
    intro i s hs
    simp only [subscriber.yield_loop] at hs
    split_ifs at hs with h h1 h2
    · simp [steps, Event.step] at hs
      exact hs
    · simp [steps, Event.step] at hs
      exact hs
    · simp only [Outcome.after, steps_append] at hs
      rcases List.mem_append.mp hs with h1 | h1
      · simp [steps, Event.step] at h1
        exact h1
      · exact ih _ s h1
    · simp only [Outcome.after, steps_append] at hs
      rcases List.mem_append.mp hs with h1 | h1
      · simp [steps, Event.step] at h1
        exact h1
      · exact ih _ s h1

theorem yield_loop_exit (env : Env) (fuel : Nat) :
    ∀ i code, (subscriber.yield_loop env fuel i).exit_code = some code → code = 1 := by
  induction fuel with
  | zero => intro i code h; simp [subscriber.yield_loop] at h
  | succ f ih =>
    intro i code h
    simp only [subscriber.yield_loop] at h
    split_ifs at h with hr h1 h2
    · simp at h; exact h.symm
    · simp at h; exact h.symm
    · exact ih _ code h
    · exact ih _ code h

/-! ## The phases of `main` -/

theorem steps_nil : steps [] = [] := rfl

theorem steps_cons_silent (e : Event) (l : List Event) (h : e.step = none) : steps (e :: l) = steps l := by
  simp [steps, List.filterMap_cons, h]

theorem steps_cons_step (e : Event) (s : Step) (l : List Event) (h : e.step = some s) :
    steps (e :: l) = s :: steps l := by
  simp [steps, List.filterMap_cons, h]

theorem publisher_main_phases (env : Env) (fuel : Nat) :
    (¬ network_up env ∧ (publisher.main env fuel).exit_code = some (-1) ∧
      Event.get_ip_address ∉ (publisher.main env fuel).trace ∧
      steps (publisher.main env fuel).trace = List.replicate (network_attempts env) Step.network) ∨
    (network_up env ∧ config_check_fails env.config = true ∧
      (publisher.main env fuel).exit_code = some (-1) ∧
      Event.get_ip_address ∈ (publisher.main env fuel).trace ∧
      steps (publisher.main env fuel).trace = List.replicate (network_attempts env) Step.network) ∨
    (network_up env ∧ config_check_fails env.config = false ∧
      env.discover_result ≠ env.codes.CY_RSLT_SUCCESS ∧
      (publisher.main env fuel).exit_code = some 1 ∧
      Event.get_ip_address ∈ (publisher.main env fuel).trace ∧
      steps (publisher.main env fuel).trace =
        List.replicate (network_attempts env) Step.network ++ [Step.discover]) ∨
    (network_up env ∧ config_check_fails env.config = false ∧
      env.discover_result = env.codes.CY_RSLT_SUCCESS ∧
      env.connect_result ≠ env.codes.CY_RSLT_SUCCESS ∧
      (publisher.main env fuel).exit_code = some 1 ∧
      Event.get_ip_address ∈ (publisher.main env fuel).trace ∧
      steps (publisher.main env fuel).trace =
        List.replicate (network_attempts env) Step.network ++ [Step.discover, Step.connect]) ∨
    (network_up env ∧ config_check_fails env.config = false ∧
      env.discover_result = env.codes.CY_RSLT_SUCCESS ∧
      env.connect_result = env.codes.CY_RSLT_SUCCESS ∧
      (publisher.main env fuel).exit_code = (publisher.publish_loop env fuel 0).exit_code ∧
      Event.get_ip_address ∈ (publisher.main env fuel).trace ∧
      steps (publisher.main env fuel).trace =
        List.replicate (network_attempts env) Step.network ++ [Step.discover, Step.connect] ++
          steps (publisher.publish_loop env fuel 0).trace) := by
  have hst := network_connect_loop_status env (-1)
  have hsteps := network_connect_loop_steps env (-1)
  have hnoip := network_connect_loop_no_ip env (-1)
  have hcb := steps_eq_nil_of_silent _ (publisher_callbacks_silent env.discover_callbacks zero_endpoint)
  unfold zero_endpoint at hcb
  by_cases hnet : network_up env
  · have hok := hst.mpr hnet
    right
    by_cases hcfg : config_check_fails env.config = true
    · left
      refine ⟨hnet, hcfg, ?_, ?_, ?_⟩ <;>
        simp [publisher.main, hok, hcfg, steps_append, hsteps, steps_cons_silent, steps_nil, Event.step]
    · right
      simp only [Bool.not_eq_true] at hcfg
      by_cases hdisc : env.discover_result = env.codes.CY_RSLT_SUCCESS
      · right
        by_cases hconn : env.connect_result = env.codes.CY_RSLT_SUCCESS
        · right
          refine ⟨hnet, hcfg, hdisc, hconn, ?_, ?_, ?_⟩
          · simp [publisher.main, hok, hcfg, hdisc, hconn, Outcome.after]
          · simp [publisher.main, hok, hcfg, hdisc, hconn, Outcome.after]
          · simp only [publisher.main, hok, hcfg, hdisc, hconn, Outcome.after, ne_eq, not_true_eq_false,
              if_false, steps_append, List.cons_append, hcb, hsteps]
            simp [steps_nil, steps_cons_silent, steps_cons_step, Event.step, steps_append, hsteps, hcb]
        · left
          refine ⟨hnet, hcfg, hdisc, hconn, ?_, ?_, ?_⟩
          · simp [publisher.main, hok, hcfg, hdisc, hconn]
          · simp [publisher.main, hok, hcfg, hdisc, hconn]
          · simp only [publisher.main, hok, hcfg, hdisc, hconn, ne_eq, not_true_eq_false,
              not_false_eq_true, if_true, if_false, steps_append, List.cons_append, hcb, hsteps]
            simp [steps_nil, steps_cons_silent, steps_cons_step, Event.step, steps_append, hsteps, hcb]
      · left
        refine ⟨hnet, hcfg, hdisc, ?_, ?_, ?_⟩
        · simp [publisher.main, hok, hcfg, hdisc]
        · simp [publisher.main, hok, hcfg, hdisc]
        · simp only [publisher.main, hok, hcfg, hdisc, ne_eq, not_true_eq_false,
            not_false_eq_true, if_true, if_false, steps_append, List.cons_append, hcb, hsteps]
          simp [steps_nil, steps_cons_silent, steps_cons_step, Event.step, steps_append, hsteps, hcb]
  · left
    have hno : ¬ (network_connect_loop env 3 0 (-1)).1 = env.codes.NSAPI_ERROR_OK := fun h => hnet (hst.mp h)
    refine ⟨hnet, ?_, ?_, ?_⟩
    · simp [publisher.main, hno]
    · simp [publisher.main, hno, hnoip]
    · simp [publisher.main, hno, steps_append, hsteps, steps_cons_silent, steps_nil, Event.step]

theorem subscriber_main_phases (env : Env) (fuel : Nat) :
    (¬ network_up env ∧ (subscriber.main env fuel).exit_code = some (-1) ∧
      Event.get_ip_address ∉ (subscriber.main env fuel).trace ∧
      steps (subscriber.main env fuel).trace = List.replicate (network_attempts env) Step.network) ∨
    (network_up env ∧ config_check_fails env.config = true ∧
      (subscriber.main env fuel).exit_code = some (-1) ∧
      Event.get_ip_address ∈ (subscriber.main env fuel).trace ∧
      steps (subscriber.main env fuel).trace = List.replicate (network_attempts env) Step.network) ∨
    (network_up env ∧ config_check_fails env.config = false ∧
      env.discover_result ≠ env.codes.CY_RSLT_SUCCESS ∧
      (subscriber.main env fuel).exit_code = some 1 ∧
      Event.get_ip_address ∈ (subscriber.main env fuel).trace ∧
      steps (subscriber.main env fuel).trace =
        List.replicate (network_attempts env) Step.network ++ [Step.discover]) ∨
    (network_up env ∧ config_check_fails env.config = false ∧
      env.discover_result = env.codes.CY_RSLT_SUCCESS ∧
      env.connect_result ≠ env.codes.CY_RSLT_SUCCESS ∧
      (subscriber.main env fuel).exit_code = some 1 ∧
      Event.get_ip_address ∈ (subscriber.main env fuel).trace ∧
      steps (subscriber.main env fuel).trace =
        List.replicate (network_attempts env) Step.network ++ [Step.discover, Step.connect]) ∨
    (network_up env ∧ config_check_fails env.config = false ∧
      env.discover_result = env.codes.CY_RSLT_SUCCESS ∧
      env.connect_result = env.codes.CY_RSLT_SUCCESS ∧
      env.subscribe_result ≠ env.codes.CY_RSLT_SUCCESS ∧
      (subscriber.main env fuel).exit_code = some 1 ∧
      Event.get_ip_address ∈ (subscriber.main env fuel).trace ∧
      steps (subscriber.main env fuel).trace =
        List.replicate (network_attempts env) Step.network ++
          [Step.discover, Step.connect, Step.subscribe]) ∨
    (network_up env ∧ config_check_fails env.config = false ∧
      env.discover_result = env.codes.CY_RSLT_SUCCESS ∧
      env.connect_result = env.codes.CY_RSLT_SUCCESS ∧
      env.subscribe_result = env.codes.CY_RSLT_SUCCESS ∧
      (subscriber.main env fuel).exit_code = (subscriber.yield_loop env fuel 0).exit_code ∧
      Event.get_ip_address ∈ (subscriber.main env fuel).trace ∧
      steps (subscriber.main env fuel).trace =
        List.replicate (network_attempts env) Step.network ++
          [Step.discover, Step.connect, Step.subscribe] ++
          steps (subscriber.yield_loop env fuel 0).trace) := by
  have hst := network_connect_loop_status env (-1)
  have hsteps := network_connect_loop_steps env (-1)
  have hnoip := network_connect_loop_no_ip env (-1)
  have hcb := steps_eq_nil_of_silent _ (subscriber_callbacks_silent env.discover_callbacks none)
  by_cases hnet : network_up env
  · have hok := hst.mpr hnet
    right
    by_cases hcfg : config_check_fails env.config = true
    · left
      refine ⟨hnet, hcfg, ?_, ?_, ?_⟩ <;>
        simp [subscriber.main, hok, hcfg, steps_append, hsteps, steps_cons_silent, steps_nil, Event.step]
    · right
      simp only [Bool.not_eq_true] at hcfg
      by_cases hdisc : env.discover_result = env.codes.CY_RSLT_SUCCESS
      · right
        by_cases hconn : env.connect_result = env.codes.CY_RSLT_SUCCESS
        · right
          by_cases hsub : env.subscribe_result = env.codes.CY_RSLT_SUCCESS
          · right
            refine ⟨hnet, hcfg, hdisc, hconn, hsub, ?_, ?_, ?_⟩
            · simp [subscriber.main, hok, hcfg, hdisc, hconn, hsub, Outcome.after]
            · simp [subscriber.main, hok, hcfg, hdisc, hconn, hsub, Outcome.after]
            · simp only [subscriber.main, hok, hcfg, hdisc, hconn, hsub, Outcome.after, ne_eq,
                not_true_eq_false, if_false, steps_append, List.cons_append, hcb, hsteps]
              simp [steps_nil, steps_cons_silent, steps_cons_step, Event.step, steps_append, hsteps, hcb]
          · left
            refine ⟨hnet, hcfg, hdisc, hconn, hsub, ?_, ?_, ?_⟩
            · simp [subscriber.main, hok, hcfg, hdisc, hconn, hsub]
            · simp [subscriber.main, hok, hcfg, hdisc, hconn, hsub]
            · simp only [subscriber.main, hok, hcfg, hdisc, hconn, hsub, ne_eq, not_true_eq_false,
                not_false_eq_true, if_true, if_false, steps_append, List.cons_append, hcb, hsteps]
              simp [steps_nil, steps_cons_silent, steps_cons_step, Event.step, steps_append, hsteps, hcb]
        · left
          refine ⟨hnet, hcfg, hdisc, hconn, ?_, ?_, ?_⟩
          · simp [subscriber.main, hok, hcfg, hdisc, hconn]
          · simp [subscriber.main, hok, hcfg, hdisc, hconn]
          · simp only [subscriber.main, hok, hcfg, hdisc, hconn, ne_eq, not_true_eq_false,
              not_false_eq_true, if_true, if_false, steps_append, List.cons_append, hcb, hsteps]
            simp [steps_nil, steps_cons_silent, steps_cons_step, Event.step, steps_append, hsteps, hcb]
      · left
        refine ⟨hnet, hcfg, hdisc, ?_, ?_, ?_⟩
        · simp [subscriber.main, hok, hcfg, hdisc]
        · simp [subscriber.main, hok, hcfg, hdisc]
        · simp only [subscriber.main, hok, hcfg, hdisc, ne_eq, not_true_eq_false,
            not_false_eq_true, if_true, if_false, steps_append, List.cons_append, hcb, hsteps]
          simp [steps_nil, steps_cons_silent, steps_cons_step, Event.step, steps_append, hsteps, hcb]
  · left
    have hno : ¬ (network_connect_loop env 3 0 (-1)).1 = env.codes.NSAPI_ERROR_OK := fun h => hnet (hst.mp h)
    refine ⟨hnet, ?_, ?_, ?_⟩
    · simp [subscriber.main, hno]
    · simp [subscriber.main, hno, hnoip]
    · simp [subscriber.main, hno, steps_append, hsteps, steps_cons_silent, steps_nil, Event.step]

theorem calls_of_eq_nil_of_not_mem_steps (s : Step) (l : List Event) (h : s ∉ steps l) :
    calls_of s l = [] := by
  induction l with
  | nil => rfl
  | cons e l ih =>
    cases he : e.step with
    | none =>
      rw [steps_cons_silent e l he] at h
      simp only [calls_of] at ih ⊢
      rw [List.filter_cons, he]
      simpa using ih h
    | some t =>
      rw [steps_cons_step e t l he] at h
      simp only [List.mem_cons, not_or] at h
      simp only [calls_of] at ih ⊢
      rw [List.filter_cons, he]
      have hne : ¬ (some t = some s) := fun hh => h.1 (Option.some.inj hh).symm
      simpa [hne] using ih h.2

theorem calls_of_nil (s : Step) : calls_of s [] = [] := rfl

theorem calls_of_cons (s : Step) (e : Event) (l : List Event) :
    calls_of s (e :: l) = if e.step = some s then e :: calls_of s l else calls_of s l := by
  simp only [calls_of, List.filter_cons]
  by_cases h : e.step = some s <;> simp [h]

/-! ## The claims -/

/-- C1: for every discovery response with at least one group whose core has at least one
candidate connection, the discovery callback of the publisher and of the subscriber selects the
first group's first candidate: the endpoint it produces is built from the head of the group list
and the head of that core's connection list, and it is the same for every response that differs
only in the groups and candidates that follow (`gs`, `cs` against `gs'`, `cs'`). -/
theorem C1_callback_selects_first_group_first_candidate
    (data data' : aws_greengrass_discovery_callback_data_t)
    (g : aws_greengrass_core_t) (gs gs' : List aws_greengrass_core_t)
    (c : aws_greengrass_core_connection_t) (cs cs' : List aws_greengrass_core_connection_t)
    (st : aws_endpoint_params_t) (ep : Option aws_endpoint_params_t)
    (hg : data.groups = some ⟨g :: gs⟩) (hc : g.info.connections = ⟨c :: cs⟩)
    (hg' : data'.groups = some ⟨⟨{ g.info with connections := ⟨c :: cs'⟩ }⟩ :: gs'⟩) :
    (publisher.my_publisher_greengrass_discovery_callback data st).1 =
        { transport := AWS_TRANSPORT_MQTT_NATIVE
          uri := some c.info.ip_address
          port := atoi c.info.port
          root_ca := some g.info.root_ca_certificate
          root_ca_length := strlen g.info.root_ca_certificate } ∧
      (subscriber.my_publisher_greengrass_discovery_callback data ep).1 =
        some { transport := AWS_TRANSPORT_MQTT_NATIVE
               uri := some c.info.ip_address
               port := atoi c.info.port
               root_ca := some g.info.root_ca_certificate
               root_ca_length := strlen g.info.root_ca_certificate } ∧
      (publisher.my_publisher_greengrass_discovery_callback data' st).1 =
        (publisher.my_publisher_greengrass_discovery_callback data st).1 ∧
      (subscriber.my_publisher_greengrass_discovery_callback data' ep).1 =
        (subscriber.my_publisher_greengrass_discovery_callback data ep).1 := by
  rw [publisher_callback_selected data g gs c cs st hg hc,
    subscriber_callback_selected data g gs c cs ep hg hc,
    publisher_callback_selected data' _ gs' c cs' st hg' rfl,
    subscriber_callback_selected data' _ gs' c cs' ep hg' rfl]
  exact ⟨rfl, rfl, rfl, rfl⟩

/-- C2: for every selected core and candidate, the endpoint built by the callback (the value of
`endpoint_params` in the publisher, the arguments of `create_endpoint` in the subscriber) has
transport kind native MQTT, address equal to the candidate's address string, root certificate
equal to the core's root certificate with `root_ca_length` its full length, and, for every
decimal port string denoting an integer `n` in [1, 65535], port equal to `n`. -/
theorem C2_endpoint_fields_copied_and_port_parsed
    (data : aws_greengrass_discovery_callback_data_t)
    (g : aws_greengrass_core_t) (gs : List aws_greengrass_core_t)
    (c : aws_greengrass_core_connection_t) (cs : List aws_greengrass_core_connection_t)
    (st : aws_endpoint_params_t) (ep : Option aws_endpoint_params_t)
    (hg : data.groups = some ⟨g :: gs⟩) (hc : g.info.connections = ⟨c :: cs⟩) :
    (publisher.my_publisher_greengrass_discovery_callback data st).1.transport = AWS_TRANSPORT_MQTT_NATIVE ∧
      (publisher.my_publisher_greengrass_discovery_callback data st).1.uri = some c.info.ip_address ∧
      (publisher.my_publisher_greengrass_discovery_callback data st).1.root_ca =
        some g.info.root_ca_certificate ∧
      (publisher.my_publisher_greengrass_discovery_callback data st).1.root_ca_length =
        g.info.root_ca_certificate.length ∧
      (∀ n : Nat, is_decimal_numeral c.info.port = true → decimal_value c.info.port = n →
        1 ≤ n → n ≤ 65535 →
        (publisher.my_publisher_greengrass_discovery_callback data st).1.port = (n : Int)) ∧
      (subscriber.my_publisher_greengrass_discovery_callback data ep).1 =
        some (publisher.my_publisher_greengrass_discovery_callback data st).1 ∧
      Event.create_endpoint (publisher.my_publisher_greengrass_discovery_callback data st).1 ∈
        (subscriber.my_publisher_greengrass_discovery_callback data ep).2 := by
  rw [publisher_callback_selected data g gs c cs st hg hc,
    subscriber_callback_selected data g gs c cs ep hg hc]
  refine ⟨rfl, rfl, rfl, rfl, ?_, rfl, by simp⟩
  intro n hnum hval _ hle
  subst hval
  exact atoi_decimal_numeral _ hnum (by omega)

/-- C3: for every discovery response whose group sequence is absent or empty, or whose first
group's core has no candidate connection, the callback leaves the shared endpoint state as it
was (publisher: `endpoint_params`, subscriber: `ep`); and in the publisher, when every response
handed to the callback is such and `discover` returns success, the connect call that follows
receives the zero-valued endpoint set at the start of `main`. -/
theorem C3_no_selection_leaves_endpoint_unchanged
    (data : aws_greengrass_discovery_callback_data_t)
    (st : aws_endpoint_params_t) (ep : Option aws_endpoint_params_t) (env : Env) (fuel : Nat) :
    (selects_nothing data = true →
      (publisher.my_publisher_greengrass_discovery_callback data st).1 = st ∧
      (subscriber.my_publisher_greengrass_discovery_callback data ep).1 = ep) ∧
    (network_up env → config_check_fails env.config = false →
      (∀ d ∈ env.discover_callbacks, selects_nothing d = true) →
      env.discover_result = env.codes.CY_RSLT_SUCCESS →
      calls_of Step.connect (publisher.main env fuel).trace =
        [Event.connect
          { keep_alive := 60, client_id := some env.config.AWSIOT_THING_NAME,
            username := none, password := none, peer_cn := none }
          { transport := AWS_TRANSPORT_MQTT_NATIVE, uri := none, port := 0, root_ca := none,
            root_ca_length := 0 }]) := by
  refine ⟨fun h => ⟨publisher_callback_nothing data st h, subscriber_callback_nothing data ep h⟩, ?_⟩
  intro hnet hcfg hall hdisc
  have hok := (network_connect_loop_status env (-1)).mpr hnet
  have hst := publisher_callbacks_nothing env.discover_callbacks zero_endpoint hall
  have hnetc : calls_of Step.connect (network_connect_loop env 3 0 (-1)).2 = [] := by
    apply calls_of_eq_nil_of_not_mem_steps
    rw [network_connect_loop_steps]
    intro h
    exact absurd (List.eq_of_mem_replicate h) (by decide)
  have hcb := calls_of_eq_nil_of_silent Step.connect _
    (publisher_callbacks_silent env.discover_callbacks zero_endpoint)
  have hloop : calls_of Step.connect (publisher.publish_loop env fuel 0).trace = [] := by
    apply calls_of_eq_nil_of_not_mem_steps
    intro h
    exact absurd (publish_loop_steps env fuel 0 _ h) (by decide)
  unfold zero_endpoint at hst hcb
  by_cases hconn : env.connect_result = env.codes.CY_RSLT_SUCCESS
  · simp only [publisher.main, hok, hcfg, hdisc, hconn, Outcome.after, ne_eq, not_true_eq_false,
      if_false, calls_of_append, List.cons_append, hst]
    simp [calls_of_append, calls_of_cons, calls_of_nil, Event.step, AWSIOT_KEEPALIVE_TIMEOUT, hnetc, hcb, hloop]
  · simp only [publisher.main, hok, hcfg, hdisc, hconn, ne_eq, not_true_eq_false, not_false_eq_true,
      if_true, if_false, calls_of_append, List.cons_append, hst]
    simp [calls_of_append, calls_of_cons, calls_of_nil, Event.step, AWSIOT_KEEPALIVE_TIMEOUT, hnetc, hcb]

/-- Witness of C1 on a response with two groups and two candidates, against a variant with other
followers. -/
theorem C1_witness :
    (publisher.my_publisher_greengrass_discovery_callback example_response zero_endpoint).1 =
        { transport := AWS_TRANSPORT_MQTT_NATIVE, uri := some "10.0.0.5", port := 8883,
          root_ca := some "<pem>", root_ca_length := 5 } ∧
      (subscriber.my_publisher_greengrass_discovery_callback example_response none).1 =
        some { transport := AWS_TRANSPORT_MQTT_NATIVE, uri := some "10.0.0.5", port := 8883,
               root_ca := some "<pem>", root_ca_length := 5 } ∧
      (publisher.my_publisher_greengrass_discovery_callback example_response_variant zero_endpoint).1 =
        (publisher.my_publisher_greengrass_discovery_callback example_response zero_endpoint).1 ∧
      (subscriber.my_publisher_greengrass_discovery_callback example_response_variant none).1 =
        (subscriber.my_publisher_greengrass_discovery_callback example_response none).1 :=
  C1_callback_selects_first_group_first_candidate example_response example_response_variant
    example_core [other_core] [other_core, other_core] example_candidate [other_candidate] []
    zero_endpoint none rfl rfl rfl

/-- Witness of C2 on the end-to-end scenario `{ip: "10.0.0.5", port: "8883", rootCA: "<pem>"}`. -/
theorem C2_witness :
    (publisher.my_publisher_greengrass_discovery_callback example_response zero_endpoint).1.port = 8883 ∧
      (publisher.my_publisher_greengrass_discovery_callback example_response zero_endpoint).1.uri =
        some "10.0.0.5" ∧
      (publisher.my_publisher_greengrass_discovery_callback example_response zero_endpoint).1.root_ca_length = 5 :=
  have h := C2_endpoint_fields_copied_and_port_parsed example_response example_core [other_core]
    example_candidate [other_candidate] zero_endpoint none rfl rfl
  ⟨h.2.2.2.2.1 8883 (by decide) (by decide) (by decide) (by decide), h.2.1, h.2.2.2.1⟩

/-- Witness of C3: an empty response leaves the endpoint as it was, and connect then receives the
zero-valued endpoint. -/
theorem C3_witness :
    (publisher.my_publisher_greengrass_discovery_callback empty_response zero_endpoint).1 = zero_endpoint ∧
      calls_of Step.connect (publisher.main empty_discovery_env 1).trace =
        [Event.connect
          { keep_alive := 60, client_id := some "thing", username := none, password := none,
            peer_cn := none }
          { transport := AWS_TRANSPORT_MQTT_NATIVE, uri := none, port := 0, root_ca := none,
            root_ca_length := 0 }] :=
  have h := C3_no_selection_leaves_endpoint_unchanged empty_response zero_endpoint none
    empty_discovery_env 1
  ⟨(h.1 rfl).1, h.2 (by decide) (by decide) (by decide) rfl⟩

/-- C9, counterexample: selection succeeds on a response whose first candidate has an empty
address and the port string "0" and whose core has an empty root certificate, and the endpoint
produced (publisher and subscriber) has an empty address, port 0 and `root_ca_length` 0. -/
theorem C9_counterexample :
    selects_nothing blank_response = false ∧
      (publisher.my_publisher_greengrass_discovery_callback blank_response zero_endpoint).1 =
        { transport := AWS_TRANSPORT_MQTT_NATIVE, uri := some "", port := 0, root_ca := some "",
          root_ca_length := 0 } ∧
      (subscriber.my_publisher_greengrass_discovery_callback blank_response none).1 =
        some { transport := AWS_TRANSPORT_MQTT_NATIVE, uri := some "", port := 0, root_ca := some "",
               root_ca_length := 0 } := by
  decide

/-- C9, amended: for every discovery response on which the selection succeeds, if the first
candidate's address is non-empty, its port string is a decimal numeral denoting an integer in
[1, 65535] and the core's root certificate is non-empty, then the endpoint produced (publisher
and subscriber) has a non-empty address, a non-zero port and a non-empty root certificate with
`root_ca_length > 0`. -/
theorem C9_endpoint_non_empty_for_valid_candidate
    (data : aws_greengrass_discovery_callback_data_t)
    (g : aws_greengrass_core_t) (gs : List aws_greengrass_core_t)
    (c : aws_greengrass_core_connection_t) (cs : List aws_greengrass_core_connection_t)
    (st : aws_endpoint_params_t) (ep : Option aws_endpoint_params_t)
    (hg : data.groups = some ⟨g :: gs⟩) (hc : g.info.connections = ⟨c :: cs⟩)
    (haddr : c.info.ip_address ≠ "")
    (hnum : is_decimal_numeral c.info.port = true)
    (hlo : 1 ≤ decimal_value c.info.port) (hhi : decimal_value c.info.port ≤ 65535)
    (hca : g.info.root_ca_certificate ≠ "") :
    (∃ a, (publisher.my_publisher_greengrass_discovery_callback data st).1.uri = some a ∧ a ≠ "") ∧
      (publisher.my_publisher_greengrass_discovery_callback data st).1.port ≠ 0 ∧
      (∃ r, (publisher.my_publisher_greengrass_discovery_callback data st).1.root_ca = some r ∧ r ≠ "") ∧
      (publisher.my_publisher_greengrass_discovery_callback data st).1.root_ca_length > 0 ∧
      (subscriber.my_publisher_greengrass_discovery_callback data ep).1 =
        some (publisher.my_publisher_greengrass_discovery_callback data st).1 := by
  rw [publisher_callback_selected data g gs c cs st hg hc,
    subscriber_callback_selected data g gs c cs ep hg hc]
  refine ⟨⟨_, rfl, haddr⟩, ?_, ⟨_, rfl, hca⟩, ?_, rfl⟩
  · show atoi c.info.port ≠ 0
    rw [atoi_decimal_numeral _ hnum (by omega)]
    omega
  · show strlen g.info.root_ca_certificate > 0
    unfold strlen
    rcases hgc : g.info.root_ca_certificate with ⟨l⟩
    rw [hgc] at hca
    cases l with
    | nil => exact absurd rfl hca
    | cons x xs => simp [String.length]

/-- Witness of C9 (amended) on the end-to-end scenario. -/
theorem C9_witness :
    (publisher.my_publisher_greengrass_discovery_callback example_response zero_endpoint).1.port ≠ 0 ∧
      (publisher.my_publisher_greengrass_discovery_callback example_response zero_endpoint).1.root_ca_length > 0 :=
  have h := C9_endpoint_non_empty_for_valid_candidate example_response example_core [other_core]
    example_candidate [other_candidate] zero_endpoint none rfl rfl (by decide) (by decide)
    (by decide) (by decide) (by decide)
  ⟨h.2.1, h.2.2.2.1⟩

/-- C10, counterexample: the port string "12abc" is not a decimal numeral, and the endpoint built
from it has port 12, not 0. -/
theorem C10_counterexample :
    is_decimal_numeral "12abc" = false ∧
      (publisher.my_publisher_greengrass_discovery_callback prefix_port_response zero_endpoint).1.port = 12 ∧
      (subscriber.my_publisher_greengrass_discovery_callback prefix_port_response none).1 =
        some { transport := AWS_TRANSPORT_MQTT_NATIVE, uri := some "10.0.0.5", port := 12,
               root_ca := some "<pem>", root_ca_length := 5 } := by
  decide

/-- C10, amended: for every selected candidate whose port string holds no number (after leading
white space and an optional sign it ends or continues with a character that is not a decimal
digit), building the endpoint signals no error (the callback prints the informational records
only) and yields an endpoint whose port is 0, with address and root certificate still copied
from the candidate and core. -/
theorem C10_port_without_number_yields_zero
    (data : aws_greengrass_discovery_callback_data_t)
    (g : aws_greengrass_core_t) (gs : List aws_greengrass_core_t)
    (c : aws_greengrass_core_connection_t) (cs : List aws_greengrass_core_connection_t)
    (st : aws_endpoint_params_t) (ep : Option aws_endpoint_params_t)
    (hg : data.groups = some ⟨g :: gs⟩) (hc : g.info.connections = ⟨c :: cs⟩)
    (hport : has_no_leading_number c.info.port = true) :
    publisher.my_publisher_greengrass_discovery_callback data st =
        ({ transport := AWS_TRANSPORT_MQTT_NATIVE
           uri := some c.info.ip_address
           port := 0
           root_ca := some g.info.root_ca_certificate
           root_ca_length := g.info.root_ca_certificate.length }, core_information_records) ∧
      subscriber.my_publisher_greengrass_discovery_callback data ep =
        (some { transport := AWS_TRANSPORT_MQTT_NATIVE
                uri := some c.info.ip_address
                port := 0
                root_ca := some g.info.root_ca_certificate
                root_ca_length := g.info.root_ca_certificate.length },
         core_information_records ++ [Event.create_endpoint
           { transport := AWS_TRANSPORT_MQTT_NATIVE
             uri := some c.info.ip_address
             port := 0
             root_ca := some g.info.root_ca_certificate
             root_ca_length := g.info.root_ca_certificate.length }]) := by
  rw [publisher_callback_selected data g gs c cs st hg hc,
    subscriber_callback_selected data g gs c cs ep hg hc, atoi_no_leading_number _ hport]
  exact ⟨rfl, rfl⟩

/-- Witness of C10 (amended) on the port string "mqtt". -/
theorem C10_witness :
    (publisher.my_publisher_greengrass_discovery_callback word_port_response zero_endpoint).1 =
      { transport := AWS_TRANSPORT_MQTT_NATIVE, uri := some "10.0.0.5", port := 0,
        root_ca := some "<pem>", root_ca_length := 5 } :=
  congrArg Prod.fst
    (C10_port_without_number_yields_zero word_port_response
      ⟨⟨"group-1", "arn:core-1", "<pem>", ⟨[⟨⟨"10.0.0.5", "mqtt"⟩⟩]⟩⟩⟩ [] ⟨⟨"10.0.0.5", "mqtt"⟩⟩ []
      zero_endpoint none rfl rfl (by decide)).1

theorem count_network_replicate_append (a : Nat) (l : List Step) (h : Step.network ∉ l) :
    (List.replicate a Step.network ++ l).count Step.network = a := by
  rw [List.count_append, List.count_replicate, List.count_eq_zero.mpr h]
  simp

theorem publisher_count_network (env : Env) (fuel : Nat) :
    (steps (publisher.main env fuel).trace).count Step.network = network_attempts env := by
  have hloop : Step.network ∉ steps (publisher.publish_loop env fuel 0).trace :=
    fun h => absurd (publish_loop_steps env fuel 0 _ h) (by decide)
  rcases publisher_main_phases env fuel with h | h | h | h | h
  · rw [h.2.2.2]; simp
  · rw [h.2.2.2.2]; simp
  · rw [h.2.2.2.2.2]
    exact count_network_replicate_append _ _ (by decide)
  · rw [h.2.2.2.2.2.2]
    exact count_network_replicate_append _ _ (by decide)
  · rw [h.2.2.2.2.2.2, List.append_assoc]
    apply count_network_replicate_append
    simpa using hloop

theorem subscriber_count_network (env : Env) (fuel : Nat) :
    (steps (subscriber.main env fuel).trace).count Step.network = network_attempts env := by
  have hloop : Step.network ∉ steps (subscriber.yield_loop env fuel 0).trace :=
    fun h => absurd (yield_loop_steps env fuel 0 _ h) (by decide)
  rcases subscriber_main_phases env fuel with h | h | h | h | h | h
  · rw [h.2.2.2]; simp
  · rw [h.2.2.2.2]; simp
  · rw [h.2.2.2.2.2]
    exact count_network_replicate_append _ _ (by decide)
  · rw [h.2.2.2.2.2.2]
    exact count_network_replicate_append _ _ (by decide)
  · rw [h.2.2.2.2.2.2.2]
    exact count_network_replicate_append _ _ (by decide)
  · rw [h.2.2.2.2.2.2.2, List.append_assoc]
    apply count_network_replicate_append
    simpa using hloop

theorem publisher_discover_mem_iff (env : Env) (fuel : Nat) :
    Step.discover ∈ steps (publisher.main env fuel).trace ↔
      (network_up env ∧ config_check_fails env.config = false) := by
  have hloop : Step.discover ∉ steps (publisher.publish_loop env fuel 0).trace :=
    fun h => absurd (publish_loop_steps env fuel 0 _ h) (by decide)
  have hrep : ∀ a, Step.discover ∉ List.replicate a Step.network :=
    fun a h => absurd (List.eq_of_mem_replicate h) (by decide)
  rcases publisher_main_phases env fuel with h | h | h | h | h
  · rw [h.2.2.2]
    exact ⟨fun hh => absurd hh (hrep _), fun hh => absurd hh.1 h.1⟩
  · rw [h.2.2.2.2]
    exact ⟨fun hh => absurd hh (hrep _), fun hh => by simp [h.2.1] at hh⟩
  · rw [h.2.2.2.2.2]
    exact ⟨fun _ => ⟨h.1, h.2.1⟩, fun _ => by simp⟩
  · rw [h.2.2.2.2.2.2]
    exact ⟨fun _ => ⟨h.1, h.2.1⟩, fun _ => by simp⟩
  · rw [h.2.2.2.2.2.2]
    exact ⟨fun _ => ⟨h.1, h.2.1⟩, fun _ => by simp⟩

theorem subscriber_discover_mem_iff (env : Env) (fuel : Nat) :
    Step.discover ∈ steps (subscriber.main env fuel).trace ↔
      (network_up env ∧ config_check_fails env.config = false) := by
  have hrep : ∀ a, Step.discover ∉ List.replicate a Step.network :=
    fun a h => absurd (List.eq_of_mem_replicate h) (by decide)
  rcases subscriber_main_phases env fuel with h | h | h | h | h | h
  · rw [h.2.2.2]
    exact ⟨fun hh => absurd hh (hrep _), fun hh => absurd hh.1 h.1⟩
  · rw [h.2.2.2.2]
    exact ⟨fun hh => absurd hh (hrep _), fun hh => by simp [h.2.1] at hh⟩
  · rw [h.2.2.2.2.2]
    exact ⟨fun _ => ⟨h.1, h.2.1⟩, fun _ => by simp⟩
  · rw [h.2.2.2.2.2.2]
    exact ⟨fun _ => ⟨h.1, h.2.1⟩, fun _ => by simp⟩
  · rw [h.2.2.2.2.2.2.2]
    exact ⟨fun _ => ⟨h.1, h.2.1⟩, fun _ => by simp⟩
  · rw [h.2.2.2.2.2.2.2]
    exact ⟨fun _ => ⟨h.1, h.2.1⟩, fun _ => by simp⟩

theorem publisher_ip_mem_iff (env : Env) (fuel : Nat) :
    Event.get_ip_address ∈ (publisher.main env fuel).trace ↔ network_up env := by
  rcases publisher_main_phases env fuel with h | h | h | h | h
  · exact ⟨fun hh => absurd hh h.2.2.1, fun hh => absurd hh h.1⟩
  · exact ⟨fun _ => h.1, fun _ => h.2.2.2.1⟩
  · exact ⟨fun _ => h.1, fun _ => h.2.2.2.2.1⟩
  · exact ⟨fun _ => h.1, fun _ => h.2.2.2.2.2.1⟩
  · exact ⟨fun _ => h.1, fun _ => h.2.2.2.2.2.1⟩

theorem subscriber_ip_mem_iff (env : Env) (fuel : Nat) :
    Event.get_ip_address ∈ (subscriber.main env fuel).trace ↔ network_up env := by
  rcases subscriber_main_phases env fuel with h | h | h | h | h | h
  · exact ⟨fun hh => absurd hh h.2.2.1, fun hh => absurd hh h.1⟩
  · exact ⟨fun _ => h.1, fun _ => h.2.2.2.1⟩
  · exact ⟨fun _ => h.1, fun _ => h.2.2.2.2.1⟩
  · exact ⟨fun _ => h.1, fun _ => h.2.2.2.2.2.1⟩
  · exact ⟨fun _ => h.1, fun _ => h.2.2.2.2.2.2.1⟩
  · exact ⟨fun _ => h.1, fun _ => h.2.2.2.2.2.2.1⟩

theorem publisher_exit_of_down (env : Env) (fuel : Nat) (hdown : ¬ network_up env) :
    (publisher.main env fuel).exit_code = some (-1) := by
  rcases publisher_main_phases env fuel with h | h | h | h | h
  · exact h.2.1
  all_goals exact absurd h.1 hdown

theorem subscriber_exit_of_down (env : Env) (fuel : Nat) (hdown : ¬ network_up env) :
    (subscriber.main env fuel).exit_code = some (-1) := by
  rcases subscriber_main_phases env fuel with h | h | h | h | h | h
  · exact h.2.1
  all_goals exact absurd h.1 hdown

/-- C4: for every sequence of outcomes of the network connect call, the network-connection step
of both programs makes exactly `min 3 k` attempts, where `k` is the position of the first
successful outcome (3 attempts if there is none); `main` goes on past the step (it asks for the
IP address and, the configuration check passing, calls discover) if and only if one of the first
three attempts succeeds; and when all three fail `main` returns -1 after exactly 3 attempts
without calling discover. -/
theorem C4_network_connect_at_most_three_attempts (env : Env) (fuel : Nat) :
    (∀ k, 1 ≤ k →
      (∀ j, j + 1 < k → env.network_connect j ≠ env.codes.NSAPI_ERROR_OK) →
      env.network_connect (k - 1) = env.codes.NSAPI_ERROR_OK →
      (steps (publisher.main env fuel).trace).count Step.network = min 3 k ∧
      (steps (subscriber.main env fuel).trace).count Step.network = min 3 k) ∧
    ((∀ j, env.network_connect j ≠ env.codes.NSAPI_ERROR_OK) →
      (steps (publisher.main env fuel).trace).count Step.network = 3 ∧
      (steps (subscriber.main env fuel).trace).count Step.network = 3) ∧
    (Event.get_ip_address ∈ (publisher.main env fuel).trace ↔
      ∃ i, i < 3 ∧ env.network_connect i = env.codes.NSAPI_ERROR_OK) ∧
    (Event.get_ip_address ∈ (subscriber.main env fuel).trace ↔
      ∃ i, i < 3 ∧ env.network_connect i = env.codes.NSAPI_ERROR_OK) ∧
    (config_check_fails env.config = false →
      (Step.discover ∈ steps (publisher.main env fuel).trace ↔
        ∃ i, i < 3 ∧ env.network_connect i = env.codes.NSAPI_ERROR_OK) ∧
      (Step.discover ∈ steps (subscriber.main env fuel).trace ↔
        ∃ i, i < 3 ∧ env.network_connect i = env.codes.NSAPI_ERROR_OK)) ∧
    ((∀ i, i < 3 → env.network_connect i ≠ env.codes.NSAPI_ERROR_OK) →
      (publisher.main env fuel).exit_code = some (-1) ∧
      (steps (publisher.main env fuel).trace).count Step.network = 3 ∧
      Step.discover ∉ steps (publisher.main env fuel).trace ∧
      (subscriber.main env fuel).exit_code = some (-1) ∧
      (steps (subscriber.main env fuel).trace).count Step.network = 3 ∧
      Step.discover ∉ steps (subscriber.main env fuel).trace) := by
  rw [publisher_count_network, subscriber_count_network]
  refine ⟨?_, ?_, publisher_ip_mem_iff env fuel, subscriber_ip_mem_iff env fuel, ?_, ?_⟩
  · intro k hk hfail hok
    have := network_attempts_of_first_success env k hk hfail hok
    exact ⟨this, this⟩
  · intro hall
    have hdown : ¬ network_up env := fun ⟨i, _, h⟩ => hall i h
    have := network_attempts_of_down env hdown
    exact ⟨this, this⟩
  · intro hcfg
    rw [publisher_discover_mem_iff, subscriber_discover_mem_iff]
    exact ⟨⟨fun h => h.1, fun h => ⟨h, hcfg⟩⟩, ⟨fun h => h.1, fun h => ⟨h, hcfg⟩⟩⟩
  · intro hall
    have hdown : ¬ network_up env := fun ⟨i, hi, h⟩ => hall i hi h
    have := network_attempts_of_down env hdown
    refine ⟨publisher_exit_of_down env fuel hdown, this, ?_, subscriber_exit_of_down env fuel hdown,
      this, ?_⟩
    · rw [publisher_discover_mem_iff]
      exact fun h => hdown h.1
    · rw [subscriber_discover_mem_iff]
      exact fun h => hdown h.1

/-- Witness of C4: a network that fails twice and then succeeds is connected on the 3rd attempt,
and one that always fails gives up with -1 after 3 attempts. -/
theorem C4_witness :
    ((steps (publisher.main example_env 5).trace).count Step.network = 3 ∧
      (steps (subscriber.main example_env 5).trace).count Step.network = 3) ∧
    Step.discover ∈ steps (publisher.main example_env 5).trace ∧
    ((publisher.main no_network_env 5).exit_code = some (-1) ∧
      (steps (publisher.main no_network_env 5).trace).count Step.network = 3 ∧
      Step.discover ∉ steps (publisher.main no_network_env 5).trace ∧
      (subscriber.main no_network_env 5).exit_code = some (-1) ∧
      (steps (subscriber.main no_network_env 5).trace).count Step.network = 3 ∧
      Step.discover ∉ steps (subscriber.main no_network_env 5).trace) :=
  ⟨(C4_network_connect_at_most_three_attempts example_env 5).1 3 (by decide)
      (by intro j hj; have : j = 0 ∨ j = 1 := by omega
          rcases this with rfl | rfl <;> decide)
      (by decide),
    ((C4_network_connect_at_most_three_attempts example_env 5).2.2.2.2.1 (by decide)).1.mpr
      ⟨2, by decide, by decide⟩,
    (C4_network_connect_at_most_three_attempts no_network_env 5).2.2.2.2.2
      (fun _ _ => show (-3004 : Int) ≠ 0 by decide)⟩

theorem calls_of_publish_iterations (topic : String) (m : Nat) :
    calls_of Step.publish
      ((List.replicate m
          [Event.publish topic "HELLO" 5 ⟨AWS_QOS_ATMOST_ONCE⟩,
           Event.app_info "Published to topic successfully\r\n",
           Event.wait_us 5000000]).flatten ++
        [Event.publish topic "HELLO" 5 ⟨AWS_QOS_ATMOST_ONCE⟩,
         Event.app_info "publish to topic failed\r\n", Event.delete_client]) =
      List.replicate (m + 1) (Event.publish topic "HELLO" 5 ⟨AWS_QOS_ATMOST_ONCE⟩) := by
  induction m with
  | zero => simp [calls_of_cons, calls_of_nil, Event.step]
  | succ m ih =>
    rw [List.replicate_succ, List.flatten_cons, List.append_assoc, calls_of_append, ih]
    simp [calls_of_cons, calls_of_nil, Event.step, List.replicate_succ]

theorem publisher_main_connected (env : Env) (fuel : Nat)
    (hnet : network_up env) (hcfg : config_check_fails env.config = false)
    (hdisc : env.discover_result = env.codes.CY_RSLT_SUCCESS)
    (hconn : env.connect_result = env.codes.CY_RSLT_SUCCESS) :
    ∃ pre, calls_of Step.publish pre = [] ∧
      publisher.main env fuel = (publisher.publish_loop env fuel 0).after pre := by
  have hok := (network_connect_loop_status env (-1)).mpr hnet
  have hnetc : calls_of Step.publish (network_connect_loop env 3 0 (-1)).2 = [] := by
    apply calls_of_eq_nil_of_not_mem_steps
    rw [network_connect_loop_steps]
    intro h
    exact absurd (List.eq_of_mem_replicate h) (by decide)
  have hcb := calls_of_eq_nil_of_silent Step.publish _
    (publisher_callbacks_silent env.discover_callbacks zero_endpoint)
  unfold zero_endpoint at hcb
  simp only [publisher.main, hok, hcfg, hdisc, hconn, ne_eq, not_true_eq_false, if_false]
  refine ⟨_, ?_, rfl⟩
  simp [calls_of_append, calls_of_cons, calls_of_nil, Event.step, hnetc, hcb]

/-- C5: for every `n ≥ 1` and every publish stub whose first failure is on its `n`-th call, the
publish loop of the publisher, once connected, makes exactly `n` publish calls (`n - 1`
successful ones followed by the failing one, never another), each with the payload "HELLO" of
length 5 on the configured topic at QoS at-most-once, then releases the client and terminates
with exit code 1. -/
theorem C5_publish_loop_stops_at_first_failure (env : Env) (n fuel : Nat)
    (hn : 1 ≤ n) (hfuel : n ≤ fuel)
    (hs : ∀ j, j + 1 < n → env.publish_result j = env.codes.CY_RSLT_SUCCESS)
    (hf : env.publish_result (n - 1) ≠ env.codes.CY_RSLT_SUCCESS) :
    publisher.publish_loop env fuel 0 =
        ⟨some 1,
          (List.replicate (n - 1)
            [Event.publish env.config.AWSIOT_TOPIC "HELLO" 5 ⟨AWS_QOS_ATMOST_ONCE⟩,
             Event.app_info "Published to topic successfully\r\n",
             Event.wait_us 5000000]).flatten ++
          [Event.publish env.config.AWSIOT_TOPIC "HELLO" 5 ⟨AWS_QOS_ATMOST_ONCE⟩,
           Event.app_info "publish to topic failed\r\n", Event.delete_client]⟩ ∧
      calls_of Step.publish (publisher.publish_loop env fuel 0).trace =
        List.replicate n (Event.publish env.config.AWSIOT_TOPIC "HELLO" 5 ⟨AWS_QOS_ATMOST_ONCE⟩) ∧
      (network_up env → config_check_fails env.config = false →
        env.discover_result = env.codes.CY_RSLT_SUCCESS →
        env.connect_result = env.codes.CY_RSLT_SUCCESS →
        (publisher.main env fuel).exit_code = some 1 ∧
        calls_of Step.publish (publisher.main env fuel).trace =
          List.replicate n (Event.publish env.config.AWSIOT_TOPIC "HELLO" 5 ⟨AWS_QOS_ATMOST_ONCE⟩) ∧
        ∃ pre, (publisher.main env fuel).trace =
          pre ++ [Event.publish env.config.AWSIOT_TOPIC "HELLO" 5 ⟨AWS_QOS_ATMOST_ONCE⟩,
                  Event.app_info "publish to topic failed\r\n", Event.delete_client]) := by
  obtain ⟨m, rfl⟩ : ∃ m, n = m + 1 := ⟨n - 1, by omega⟩
  simp only [Nat.add_sub_cancel] at hf ⊢
  have hloop := publish_loop_first_failure env m fuel 0 (by omega)
    (fun j hj => by rw [Nat.zero_add]; exact hs j (by omega))
    (by rw [Nat.zero_add]; exact hf)
  have hcalls := calls_of_publish_iterations env.config.AWSIOT_TOPIC m
  refine ⟨hloop, ?_, ?_⟩
  · rw [hloop]
    exact hcalls
  · intro hnet hcfg hdisc hconn
    obtain ⟨pre, hpre, hmain⟩ := publisher_main_connected env fuel hnet hcfg hdisc hconn
    rw [hmain, hloop]
    refine ⟨rfl, ?_, ?_⟩
    · simp only [Outcome.after]
      rw [calls_of_append, hpre, List.nil_append]
      exact hcalls
    · exact ⟨_, (List.append_assoc _ _ _).symm⟩

/-- Witness of C5: a publish stub failing on its 2nd call yields one successful publish, then
the failing one, and exit code 1. -/
theorem C5_witness :
    (publisher.main example_env 2).exit_code = some 1 ∧
      calls_of Step.publish (publisher.main example_env 2).trace =
        [Event.publish "topic" "HELLO" 5 ⟨AWS_QOS_ATMOST_ONCE⟩,
         Event.publish "topic" "HELLO" 5 ⟨AWS_QOS_ATMOST_ONCE⟩] :=
  have h := (C5_publish_loop_stops_at_first_failure example_env 2 2 (by decide) (by decide)
    (by intro j hj; have : j = 0 := by omega
        subst this; decide)
    (by decide)).2.2 (by decide) (by decide) (by decide) (by decide)
  ⟨h.1, h.2.1⟩

theorem calls_of_yield_iterations (msg : String) (m : Nat) :
    calls_of Step.yield
      ((List.replicate m [Event.yield 1000, Event.wait_ms 1000]).flatten ++
        [Event.yield 1000, Event.app_info msg]) =
      List.replicate (m + 1) (Event.yield 1000) := by
  induction m with
  | zero => simp [calls_of_cons, calls_of_nil, Event.step]
  | succ m ih =>
    rw [List.replicate_succ, List.flatten_cons, List.append_assoc, calls_of_append, ih]
    simp [calls_of_cons, calls_of_nil, Event.step, List.replicate_succ]

theorem subscriber_main_subscribed (env : Env) (fuel : Nat)
    (hnet : network_up env) (hcfg : config_check_fails env.config = false)
    (hdisc : env.discover_result = env.codes.CY_RSLT_SUCCESS)
    (hconn : env.connect_result = env.codes.CY_RSLT_SUCCESS)
    (hsub : env.subscribe_result = env.codes.CY_RSLT_SUCCESS) :
    ∃ pre, calls_of Step.yield pre = [] ∧
      subscriber.main env fuel = (subscriber.yield_loop env fuel 0).after pre := by
  have hok := (network_connect_loop_status env (-1)).mpr hnet
  have hnetc : calls_of Step.yield (network_connect_loop env 3 0 (-1)).2 = [] := by
    apply calls_of_eq_nil_of_not_mem_steps
    rw [network_connect_loop_steps]
    intro h
    exact absurd (List.eq_of_mem_replicate h) (by decide)
  have hcb := calls_of_eq_nil_of_silent Step.yield _
    (subscriber_callbacks_silent env.discover_callbacks none)
  simp only [subscriber.main, hok, hcfg, hdisc, hconn, hsub, ne_eq, not_true_eq_false, if_false]
  refine ⟨_, ?_, rfl⟩
  simp [calls_of_append, calls_of_cons, calls_of_nil, Event.step, hnetc, hcb]

/-- C6: for every sequence of yield results (the codes `DISCONNECTED` and `BUFFER_OVERFLOW` being
distinct from the success code), the yield loop of the subscriber stops exactly at the first
result that is `DISCONNECTED` or `BUFFER_OVERFLOW`: with `k` the position of that result, it makes
exactly `k` yield calls, goes on to the next iteration after each of the `k - 1` earlier results
(success or any other code), and returns exit code 1 right after the `k`-th call, without
calling yield again. -/
theorem C6_yield_loop_stops_at_first_fatal_result (env : Env) (k fuel : Nat)
    (hk : 1 ≤ k) (hfuel : k ≤ fuel)
    (hd : env.codes.CY_RSLT_AWS_ERROR_DISCONNECTED ≠ env.codes.CY_RSLT_SUCCESS)
    (hb : env.codes.CY_RSLT_AWS_ERROR_BUFFER_OVERFLOW ≠ env.codes.CY_RSLT_SUCCESS)
    (hs : ∀ j, j + 1 < k → env.yield_result j ≠ env.codes.CY_RSLT_AWS_ERROR_DISCONNECTED ∧
      env.yield_result j ≠ env.codes.CY_RSLT_AWS_ERROR_BUFFER_OVERFLOW)
    (hf : env.yield_result (k - 1) = env.codes.CY_RSLT_AWS_ERROR_DISCONNECTED ∨
      env.yield_result (k - 1) = env.codes.CY_RSLT_AWS_ERROR_BUFFER_OVERFLOW) :
    subscriber.yield_loop env fuel 0 =
        ⟨some 1,
          (List.replicate (k - 1) [Event.yield 1000, Event.wait_ms 1000]).flatten ++
          [Event.yield 1000,
           Event.app_info
            (if env.yield_result (k - 1) = env.codes.CY_RSLT_AWS_ERROR_DISCONNECTED
             then "Disconnected from MQTT broker \n"
             else "Received message is more than the MAX_MQTT_PACKET_SIZE \n")]⟩ ∧
      calls_of Step.yield (subscriber.yield_loop env fuel 0).trace =
        List.replicate k (Event.yield 1000) ∧
      (network_up env → config_check_fails env.config = false →
        env.discover_result = env.codes.CY_RSLT_SUCCESS →
        env.connect_result = env.codes.CY_RSLT_SUCCESS →
        env.subscribe_result = env.codes.CY_RSLT_SUCCESS →
        (subscriber.main env fuel).exit_code = some 1 ∧
        calls_of Step.yield (subscriber.main env fuel).trace = List.replicate k (Event.yield 1000) ∧
        ∃ pre msg, (subscriber.main env fuel).trace = pre ++ [Event.yield 1000, Event.app_info msg]) := by
  obtain ⟨m, rfl⟩ : ∃ m, k = m + 1 := ⟨k - 1, by omega⟩
  simp only [Nat.add_sub_cancel] at hf ⊢
  have hloop := yield_loop_first_stop env m fuel 0 (by omega) hd hb
    (fun j hj => by rw [Nat.zero_add]; exact hs j (by omega))
    (by rw [Nat.zero_add]; exact hf)
  rw [Nat.zero_add] at hloop
  refine ⟨hloop, ?_, ?_⟩
  · rw [hloop]
    exact calls_of_yield_iterations _ m
  · intro hnet hcfg hdisc hconn hsub
    obtain ⟨pre, hpre, hmain⟩ := subscriber_main_subscribed env fuel hnet hcfg hdisc hconn hsub
    rw [hmain, hloop]
    refine ⟨rfl, ?_, ?_⟩
    · simp only [Outcome.after]
      rw [calls_of_append, hpre, List.nil_append]
      exact calls_of_yield_iterations _ m
    · exact ⟨_, _, (List.append_assoc _ _ _).symm⟩

/-- Witness of C6: yield returns success, then an unnamed failure code, then `DISCONNECTED`; the
loop makes three yield calls and `main` returns 1. -/
theorem C6_witness :
    (subscriber.main example_env 3).exit_code = some 1 ∧
      calls_of Step.yield (subscriber.main example_env 3).trace =
        [Event.yield 1000, Event.yield 1000, Event.yield 1000] :=
  have h := (C6_yield_loop_stops_at_first_fatal_result example_env 3 3 (by decide) (by decide)
    (by decide) (by decide)
    (by intro j hj; have : j = 0 ∨ j = 1 := by omega
        rcases this with rfl | rfl <;> decide)
    (by decide)).2.2 (by decide) (by decide) (by decide) (by decide) (by decide)
  ⟨h.1, h.2.1⟩

theorem steps_eq_replicate (l : List Step) (x : Step) (h : ∀ s ∈ l, s = x) :
    l = List.replicate l.length x :=
  List.eq_replicate_iff.mpr ⟨rfl, h⟩

theorem publish_loop_failure_ends (env : Env) (fuel : Nat) :
    ∀ i j, j < (steps (publisher.publish_loop env fuel i).trace).count Step.publish →
      env.publish_result (i + j) ≠ env.codes.CY_RSLT_SUCCESS →
      (publisher.publish_loop env fuel i).exit_code = some 1 := by
  induction fuel with
  | zero => intro i j hj; simp [publisher.publish_loop, steps] at hj
  | succ f ih =>
    intro i j hj hfail
    simp only [publisher.publish_loop] at hj ⊢
    split_ifs at hj ⊢ with h
    · rfl
    · simp only [ne_eq, not_not] at h
      cases j with
      | zero => exact absurd h hfail
      | succ j =>
        simp only [Outcome.after, steps_append] at hj ⊢
        rw [List.count_append] at hj
        have h1 : (steps [Event.publish env.config.AWSIOT_TOPIC AWSIOT_MESSAGE (strlen AWSIOT_MESSAGE)
            { QoS := AWS_QOS_ATMOST_ONCE }, Event.app_info "Published to topic successfully\r\n",
            Event.wait_us (publisher.AWSIOT_TIMEOUT_IN_USEC * 5)]).count Step.publish = 1 := by
          simp [steps, Event.step]
        rw [h1] at hj
        have e : i + (j + 1) = i + 1 + j := by omega
        rw [e] at hfail
        exact ih (i + 1) j (by omega) hfail

theorem yield_loop_failure_ends (env : Env) (fuel : Nat)
    (hd : env.codes.CY_RSLT_AWS_ERROR_DISCONNECTED ≠ env.codes.CY_RSLT_SUCCESS)
    (hb : env.codes.CY_RSLT_AWS_ERROR_BUFFER_OVERFLOW ≠ env.codes.CY_RSLT_SUCCESS) :
    ∀ i j, j < (steps (subscriber.yield_loop env fuel i).trace).count Step.yield →
      (env.yield_result (i + j) = env.codes.CY_RSLT_AWS_ERROR_DISCONNECTED ∨
        env.yield_result (i + j) = env.codes.CY_RSLT_AWS_ERROR_BUFFER_OVERFLOW) →
      (subscriber.yield_loop env fuel i).exit_code = some 1 := by
  induction fuel with
  | zero => intro i j hj; simp [subscriber.yield_loop, steps] at hj
  | succ f ih =>
    intro i j hj hfail
    have h1 : (steps [Event.yield subscriber.AWSIOT_TIMEOUT,
        Event.wait_ms (subscriber.AWSIOT_TIMEOUT * 1)]).count Step.yield = 1 := by
      simp [steps, Event.step]
    simp only [subscriber.yield_loop] at hj ⊢
    split_ifs at hj ⊢ with h h2 h3
    · rfl
    · rfl
    · cases j with
      | zero =>
        simp only [Nat.add_zero] at hfail
        rcases hfail with hf | hf
        · exact absurd hf h2
        · exact absurd hf h3
      | succ j =>
        simp only [Outcome.after, steps_append] at hj ⊢
        rw [List.count_append, h1] at hj
        have e : i + (j + 1) = i + 1 + j := by omega
        rw [e] at hfail
        exact ih (i + 1) j (by omega) hfail
    · simp only [ne_eq, not_not] at h
      cases j with
      | zero =>
        simp only [Nat.add_zero] at hfail
        rcases hfail with hf | hf
        · exact absurd (hf.symm.trans h) hd
        · exact absurd (hf.symm.trans h) hb
      | succ j =>
        simp only [Outcome.after, steps_append] at hj ⊢
        rw [List.count_append, h1] at hj
        have e : i + (j + 1) = i + 1 + j := by omega
        rw [e] at hfail
        exact ih (i + 1) j (by omega) hfail

theorem publish_round_steps (env : Env) :
    (steps [Event.publish env.config.AWSIOT_TOPIC AWSIOT_MESSAGE (strlen AWSIOT_MESSAGE)
        { QoS := AWS_QOS_ATMOST_ONCE }, Event.app_info "Published to topic successfully\r\n",
        Event.wait_us (publisher.AWSIOT_TIMEOUT_IN_USEC * 5)]).count Step.publish = 1 := by
  simp [steps, Event.step]

theorem yield_round_steps :
    (steps [Event.yield subscriber.AWSIOT_TIMEOUT,
        Event.wait_ms (subscriber.AWSIOT_TIMEOUT * 1)]).count Step.yield = 1 := by
  simp [steps, Event.step]

theorem publish_loop_failure_is_last (env : Env) (fuel : Nat) :
    ∀ i j, j < (steps (publisher.publish_loop env fuel i).trace).count Step.publish →
      env.publish_result (i + j) ≠ env.codes.CY_RSLT_SUCCESS →
      (steps (publisher.publish_loop env fuel i).trace).count Step.publish = j + 1 := by
  induction fuel with
  | zero => intro i j hj; simp [publisher.publish_loop, steps] at hj
  | succ f ih =>
    intro i j hj hfail
    simp only [publisher.publish_loop] at hj ⊢
    split_ifs at hj ⊢ with h
    · have hc : (steps [Event.publish env.config.AWSIOT_TOPIC AWSIOT_MESSAGE (strlen AWSIOT_MESSAGE)
          { QoS := AWS_QOS_ATMOST_ONCE }, Event.app_info "publish to topic failed\r\n",
          Event.delete_client]).count Step.publish = 1 := by
        simp [steps, Event.step]
      rw [hc] at hj ⊢
      omega
    · simp only [ne_eq, not_not] at h
      cases j with
      | zero => exact absurd h hfail
      | succ j =>
        simp only [Outcome.after, steps_append] at hj ⊢
        rw [List.count_append, publish_round_steps] at hj ⊢
        have e : i + (j + 1) = i + 1 + j := by omega
        rw [e] at hfail
        have := ih (i + 1) j (by omega) hfail
        omega

theorem publish_loop_earlier_success (env : Env) (fuel : Nat) :
    ∀ i j, j + 1 < (steps (publisher.publish_loop env fuel i).trace).count Step.publish →
      env.publish_result (i + j) = env.codes.CY_RSLT_SUCCESS := by
  induction fuel with
  | zero => intro i j hj; simp [publisher.publish_loop, steps] at hj
  | succ f ih =>
    intro i j hj
    simp only [publisher.publish_loop] at hj
    split_ifs at hj with h
    · have hc : (steps [Event.publish env.config.AWSIOT_TOPIC AWSIOT_MESSAGE (strlen AWSIOT_MESSAGE)
          { QoS := AWS_QOS_ATMOST_ONCE }, Event.app_info "publish to topic failed\r\n",
          Event.delete_client]).count Step.publish = 1 := by
        simp [steps, Event.step]
      rw [hc] at hj
      omega
    · simp only [ne_eq, not_not] at h
      cases j with
      | zero => exact h
      | succ j =>
        simp only [Outcome.after, steps_append] at hj
        rw [List.count_append, publish_round_steps] at hj
        have e : i + (j + 1) = i + 1 + j := by omega
        rw [e]
        exact ih (i + 1) j (by omega)

theorem publish_loop_invoked (env : Env) (fuel i : Nat) (hfuel : 0 < fuel) :
    Step.publish ∈ steps (publisher.publish_loop env fuel i).trace := by
  obtain ⟨f, rfl⟩ : ∃ f, fuel = f + 1 := ⟨fuel - 1, by omega⟩
  simp only [publisher.publish_loop]
  split_ifs with h
  · simp [steps, Event.step]
  · simp [Outcome.after, steps_append, steps_cons_step, Event.step]

theorem yield_loop_failure_is_last (env : Env) (fuel : Nat)
    (hd : env.codes.CY_RSLT_AWS_ERROR_DISCONNECTED ≠ env.codes.CY_RSLT_SUCCESS)
    (hb : env.codes.CY_RSLT_AWS_ERROR_BUFFER_OVERFLOW ≠ env.codes.CY_RSLT_SUCCESS) :
    ∀ i j, j < (steps (subscriber.yield_loop env fuel i).trace).count Step.yield →
      (env.yield_result (i + j) = env.codes.CY_RSLT_AWS_ERROR_DISCONNECTED ∨
        env.yield_result (i + j) = env.codes.CY_RSLT_AWS_ERROR_BUFFER_OVERFLOW) →
      (steps (subscriber.yield_loop env fuel i).trace).count Step.yield = j + 1 := by
  induction fuel with
  | zero => intro i j hj; simp [subscriber.yield_loop, steps] at hj
  | succ f ih =>
    intro i j hj hfail
    have hc : ∀ msg, (steps [Event.yield subscriber.AWSIOT_TIMEOUT, Event.app_info msg]).count
        Step.yield = 1 := by
      intro msg
      simp [steps, Event.step]
    simp only [subscriber.yield_loop] at hj ⊢
    split_ifs at hj ⊢ with h h2 h3
    · rw [hc] at hj ⊢
      omega
    · rw [hc] at hj ⊢
      omega
    · cases j with
      | zero =>
        simp only [Nat.add_zero] at hfail
        rcases hfail with hf | hf
        · exact absurd hf h2
        · exact absurd hf h3
      | succ j =>
        simp only [Outcome.after, steps_append] at hj ⊢
        rw [List.count_append, yield_round_steps] at hj ⊢
        have e : i + (j + 1) = i + 1 + j := by omega
        rw [e] at hfail
        have := ih (i + 1) j (by omega) hfail
        omega
    · simp only [ne_eq, not_not] at h
      cases j with
      | zero =>
        simp only [Nat.add_zero] at hfail
        rcases hfail with hf | hf
        · exact absurd (hf.symm.trans h) hd
        · exact absurd (hf.symm.trans h) hb
      | succ j =>
        simp only [Outcome.after, steps_append] at hj ⊢
        rw [List.count_append, yield_round_steps] at hj ⊢
        have e : i + (j + 1) = i + 1 + j := by omega
        rw [e] at hfail
        have := ih (i + 1) j (by omega) hfail
        omega

theorem yield_loop_earlier_not_fatal (env : Env) (fuel : Nat)
    (hd : env.codes.CY_RSLT_AWS_ERROR_DISCONNECTED ≠ env.codes.CY_RSLT_SUCCESS)
    (hb : env.codes.CY_RSLT_AWS_ERROR_BUFFER_OVERFLOW ≠ env.codes.CY_RSLT_SUCCESS) :
    ∀ i j, j + 1 < (steps (subscriber.yield_loop env fuel i).trace).count Step.yield →
      env.yield_result (i + j) ≠ env.codes.CY_RSLT_AWS_ERROR_DISCONNECTED ∧
      env.yield_result (i + j) ≠ env.codes.CY_RSLT_AWS_ERROR_BUFFER_OVERFLOW := by
  induction fuel with
  | zero => intro i j hj; simp [subscriber.yield_loop, steps] at hj
  | succ f ih =>
    intro i j hj
    have hc : ∀ msg, (steps [Event.yield subscriber.AWSIOT_TIMEOUT, Event.app_info msg]).count
        Step.yield = 1 := by
      intro msg
      simp [steps, Event.step]
    simp only [subscriber.yield_loop] at hj
    split_ifs at hj with h h2 h3
    · rw [hc] at hj
      omega
    · rw [hc] at hj
      omega
    · cases j with
      | zero => exact ⟨h2, h3⟩
      | succ j =>
        simp only [Outcome.after, steps_append] at hj
        rw [List.count_append, yield_round_steps] at hj
        have e : i + (j + 1) = i + 1 + j := by omega
        rw [e]
        exact ih (i + 1) j (by omega)
    · simp only [ne_eq, not_not] at h
      cases j with
      | zero =>
        simp only [Nat.add_zero]
        rw [h]
        exact ⟨fun hh => hd hh.symm, fun hh => hb hh.symm⟩
      | succ j =>
        simp only [Outcome.after, steps_append] at hj
        rw [List.count_append, yield_round_steps] at hj
        have e : i + (j + 1) = i + 1 + j := by omega
        rw [e]
        exact ih (i + 1) j (by omega)

theorem yield_loop_invoked (env : Env) (fuel i : Nat) (hfuel : 0 < fuel) :
    Step.yield ∈ steps (subscriber.yield_loop env fuel i).trace := by
  obtain ⟨f, rfl⟩ : ∃ f, fuel = f + 1 := ⟨fuel - 1, by omega⟩
  simp only [subscriber.yield_loop]
  split_ifs with h h2 h3
  · simp [steps, Event.step]
  · simp [steps, Event.step]
  · simp [Outcome.after, steps_append, steps_cons_step, Event.step]
  · simp [Outcome.after, steps_append, steps_cons_step, Event.step]

theorem publisher_fail_fast (env : Env) (fuel : Nat) :
    (∀ code, (publisher.main env fuel).exit_code = some code → code ≠ 0 ∧ (code = -1 ∨ code = 1)) ∧
      (¬ network_up env → (publisher.main env fuel).exit_code = some (-1) ∧
        Step.discover ∉ steps (publisher.main env fuel).trace) ∧
      (Step.discover ∈ steps (publisher.main env fuel).trace →
        env.discover_result ≠ env.codes.CY_RSLT_SUCCESS →
        (publisher.main env fuel).exit_code = some 1 ∧
        Step.connect ∉ steps (publisher.main env fuel).trace ∧
        Step.publish ∉ steps (publisher.main env fuel).trace) ∧
      (Step.connect ∈ steps (publisher.main env fuel).trace →
        env.connect_result ≠ env.codes.CY_RSLT_SUCCESS →
        (publisher.main env fuel).exit_code = some 1 ∧
        Step.publish ∉ steps (publisher.main env fuel).trace) ∧
      (∀ i, i < (steps (publisher.main env fuel).trace).count Step.publish →
        env.publish_result i ≠ env.codes.CY_RSLT_SUCCESS →
        (publisher.main env fuel).exit_code = some 1 ∧
        (steps (publisher.main env fuel).trace).count Step.publish = i + 1) ∧
      (steps (publisher.main env fuel).trace).count Step.discover ≤ 1 ∧
      (steps (publisher.main env fuel).trace).count Step.connect ≤ 1 ∧
      (Step.discover ∈ steps (publisher.main env fuel).trace ↔
        network_up env ∧ config_check_fails env.config = false) ∧
      (Step.connect ∈ steps (publisher.main env fuel).trace ↔
        network_up env ∧ config_check_fails env.config = false ∧
        env.discover_result = env.codes.CY_RSLT_SUCCESS) ∧
      (Step.publish ∈ steps (publisher.main env fuel).trace →
        network_up env ∧ config_check_fails env.config = false ∧
        env.discover_result = env.codes.CY_RSLT_SUCCESS ∧
        env.connect_result = env.codes.CY_RSLT_SUCCESS) ∧
      (network_up env → config_check_fails env.config = false →
        env.discover_result = env.codes.CY_RSLT_SUCCESS →
        env.connect_result = env.codes.CY_RSLT_SUCCESS → 0 < fuel →
        Step.publish ∈ steps (publisher.main env fuel).trace) ∧
      (∀ i, i + 1 < (steps (publisher.main env fuel).trace).count Step.publish →
        env.publish_result i = env.codes.CY_RSLT_SUCCESS) ∧
      List.Pairwise (fun a b => a.rank ≤ b.rank) (steps (publisher.main env fuel).trace) ∧
      steps (publisher.main env fuel).trace =
        List.replicate ((steps (publisher.main env fuel).trace).count Step.network) Step.network ++
        (if Step.discover ∈ steps (publisher.main env fuel).trace then [Step.discover] else []) ++
        (if Step.connect ∈ steps (publisher.main env fuel).trace then [Step.connect] else []) ++
        List.replicate ((steps (publisher.main env fuel).trace).count Step.publish) Step.publish := by
  rcases publisher_main_phases env fuel with h | h | h | h | h
  · obtain ⟨hdown, hexit, _, hS⟩ := h
    rw [hS, hexit]
    simp [List.count_replicate, List.mem_replicate, List.pairwise_replicate, hdown]
  · obtain ⟨hup, hcfg, hexit, _, hS⟩ := h
    rw [hS, hexit]
    simp [List.count_replicate, List.mem_replicate, List.pairwise_replicate, hup, hcfg]
  · obtain ⟨hup, hcfg, hdisc, hexit, _, hS⟩ := h
    rw [hS, hexit]
    simp [List.count_replicate, List.count_append, List.mem_replicate, List.pairwise_replicate,
      List.pairwise_append, Step.rank, hup, hcfg, hdisc]
  · obtain ⟨hup, hcfg, hdisc, hconn, hexit, _, hS⟩ := h
    rw [hS, hexit]
    simp [List.count_replicate, List.count_append, List.mem_replicate, List.pairwise_replicate,
      List.pairwise_append, Step.rank, hup, hcfg, hdisc, hconn]
  · obtain ⟨hup, hcfg, hdisc, hconn, hexit, _, hS⟩ := h
    have hcode := publish_loop_exit env fuel 0
    have hends := publish_loop_failure_ends env fuel 0
    have hlast := publish_loop_failure_is_last env fuel 0
    have hearlier := publish_loop_earlier_success env fuel 0
    have hinv := publish_loop_invoked env fuel 0
    obtain ⟨n, hn⟩ : ∃ n, steps (publisher.publish_loop env fuel 0).trace =
        List.replicate n Step.publish := ⟨_, steps_eq_replicate _ _ (publish_loop_steps env fuel 0)⟩
    rw [hn] at hends hlast hearlier hinv
    rw [hS, hexit, hn]
    simp only [List.count_replicate_self, Nat.zero_add] at hends hlast hearlier
    have hcnt : (List.replicate (network_attempts env) Step.network ++
        [Step.discover, Step.connect] ++ List.replicate n Step.publish).count Step.publish = n := by
      simp [List.count_replicate, List.count_append]
    rw [hcnt]
    refine ⟨fun code hc => ?_, fun hdown => absurd hup hdown, fun _ hne => absurd hdisc hne,
      fun _ hne => absurd hconn hne, fun i hi hfail => ⟨hends i hi hfail, hlast i hi hfail⟩,
      ?_, ?_, ?_, ?_, fun _ => ⟨hup, hcfg, hdisc, hconn⟩, fun _ _ _ _ hfuel => ?_,
      hearlier, ?_, ?_⟩
    · have h1 := hcode code hc
      subst h1
      simp
    · simp [List.count_replicate, List.count_append]
    · simp [List.count_replicate, List.count_append]
    · simp [hup, hcfg]
    · simp [hup, hcfg, hdisc]
    · exact List.mem_append_right _ (hinv hfuel)
    · simp [List.mem_replicate, List.pairwise_replicate, List.pairwise_append, Step.rank]
    · simp [List.count_replicate, List.count_append]

theorem subscriber_fail_fast (env : Env) (fuel : Nat) :
    (∀ code, (subscriber.main env fuel).exit_code = some code → code ≠ 0 ∧ (code = -1 ∨ code = 1)) ∧
      (¬ network_up env → (subscriber.main env fuel).exit_code = some (-1) ∧
        Step.discover ∉ steps (subscriber.main env fuel).trace) ∧
      (Step.discover ∈ steps (subscriber.main env fuel).trace →
        env.discover_result ≠ env.codes.CY_RSLT_SUCCESS →
        (subscriber.main env fuel).exit_code = some 1 ∧
        Step.connect ∉ steps (subscriber.main env fuel).trace ∧
        Step.subscribe ∉ steps (subscriber.main env fuel).trace ∧
        Step.yield ∉ steps (subscriber.main env fuel).trace) ∧
      (Step.connect ∈ steps (subscriber.main env fuel).trace →
        env.connect_result ≠ env.codes.CY_RSLT_SUCCESS →
        (subscriber.main env fuel).exit_code = some 1 ∧
        Step.subscribe ∉ steps (subscriber.main env fuel).trace ∧
        Step.yield ∉ steps (subscriber.main env fuel).trace) ∧
      (Step.subscribe ∈ steps (subscriber.main env fuel).trace →
        env.subscribe_result ≠ env.codes.CY_RSLT_SUCCESS →
        (subscriber.main env fuel).exit_code = some 1 ∧
        Step.yield ∉ steps (subscriber.main env fuel).trace) ∧
      (env.codes.CY_RSLT_AWS_ERROR_DISCONNECTED ≠ env.codes.CY_RSLT_SUCCESS →
        env.codes.CY_RSLT_AWS_ERROR_BUFFER_OVERFLOW ≠ env.codes.CY_RSLT_SUCCESS →
        ∀ i, i < (steps (subscriber.main env fuel).trace).count Step.yield →
        (env.yield_result i = env.codes.CY_RSLT_AWS_ERROR_DISCONNECTED ∨
          env.yield_result i = env.codes.CY_RSLT_AWS_ERROR_BUFFER_OVERFLOW) →
        (subscriber.main env fuel).exit_code = some 1 ∧
        (steps (subscriber.main env fuel).trace).count Step.yield = i + 1) ∧
      (steps (subscriber.main env fuel).trace).count Step.discover ≤ 1 ∧
      (steps (subscriber.main env fuel).trace).count Step.connect ≤ 1 ∧
      (steps (subscriber.main env fuel).trace).count Step.subscribe ≤ 1 ∧
      (Step.discover ∈ steps (subscriber.main env fuel).trace ↔
        network_up env ∧ config_check_fails env.config = false) ∧
      (Step.connect ∈ steps (subscriber.main env fuel).trace ↔
        network_up env ∧ config_check_fails env.config = false ∧
        env.discover_result = env.codes.CY_RSLT_SUCCESS) ∧
      (Step.subscribe ∈ steps (subscriber.main env fuel).trace ↔
        network_up env ∧ config_check_fails env.config = false ∧
        env.discover_result = env.codes.CY_RSLT_SUCCESS ∧
        env.connect_result = env.codes.CY_RSLT_SUCCESS) ∧
      (Step.yield ∈ steps (subscriber.main env fuel).trace →
        network_up env ∧ config_check_fails env.config = false ∧
        env.discover_result = env.codes.CY_RSLT_SUCCESS ∧
        env.connect_result = env.codes.CY_RSLT_SUCCESS ∧
        env.subscribe_result = env.codes.CY_RSLT_SUCCESS) ∧
      (network_up env → config_check_fails env.config = false →
        env.discover_result = env.codes.CY_RSLT_SUCCESS →
        env.connect_result = env.codes.CY_RSLT_SUCCESS →
        env.subscribe_result = env.codes.CY_RSLT_SUCCESS → 0 < fuel →
        Step.yield ∈ steps (subscriber.main env fuel).trace) ∧
      (env.codes.CY_RSLT_AWS_ERROR_DISCONNECTED ≠ env.codes.CY_RSLT_SUCCESS →
        env.codes.CY_RSLT_AWS_ERROR_BUFFER_OVERFLOW ≠ env.codes.CY_RSLT_SUCCESS →
        ∀ i, i + 1 < (steps (subscriber.main env fuel).trace).count Step.yield →
        env.yield_result i ≠ env.codes.CY_RSLT_AWS_ERROR_DISCONNECTED ∧
        env.yield_result i ≠ env.codes.CY_RSLT_AWS_ERROR_BUFFER_OVERFLOW) ∧
      List.Pairwise (fun a b => a.rank ≤ b.rank) (steps (subscriber.main env fuel).trace) ∧
      steps (subscriber.main env fuel).trace =
        List.replicate ((steps (subscriber.main env fuel).trace).count Step.network) Step.network ++
        (if Step.discover ∈ steps (subscriber.main env fuel).trace then [Step.discover] else []) ++
        (if Step.connect ∈ steps (subscriber.main env fuel).trace then [Step.connect] else []) ++
        (if Step.subscribe ∈ steps (subscriber.main env fuel).trace then [Step.subscribe] else []) ++
        List.replicate ((steps (subscriber.main env fuel).trace).count Step.yield) Step.yield := by
  rcases subscriber_main_phases env fuel with h | h | h | h | h | h
  · obtain ⟨hdown, hexit, _, hS⟩ := h
    rw [hS, hexit]
    simp [List.count_replicate, List.mem_replicate, List.pairwise_replicate, hdown]
  · obtain ⟨hup, hcfg, hexit, _, hS⟩ := h
    rw [hS, hexit]
    simp [List.count_replicate, List.mem_replicate, List.pairwise_replicate, hup, hcfg]
  · obtain ⟨hup, hcfg, hdisc, hexit, _, hS⟩ := h
    rw [hS, hexit]
    simp [List.count_replicate, List.count_append, List.mem_replicate, List.pairwise_replicate,
      List.pairwise_append, Step.rank, hup, hcfg, hdisc]
  · obtain ⟨hup, hcfg, hdisc, hconn, hexit, _, hS⟩ := h
    rw [hS, hexit]
    simp [List.count_replicate, List.count_append, List.mem_replicate, List.pairwise_replicate,
      List.pairwise_append, Step.rank, hup, hcfg, hdisc, hconn]
  · obtain ⟨hup, hcfg, hdisc, hconn, hsub, hexit, _, hS⟩ := h
    rw [hS, hexit]
    simp [List.count_replicate, List.count_append, List.mem_replicate, List.pairwise_replicate,
      List.pairwise_append, Step.rank, hup, hcfg, hdisc, hconn, hsub]
  · obtain ⟨hup, hcfg, hdisc, hconn, hsub, hexit, _, hS⟩ := h
    have hcode := yield_loop_exit env fuel 0
    have hends := fun hd hb => yield_loop_failure_ends env fuel hd hb 0
    have hlast := fun hd hb => yield_loop_failure_is_last env fuel hd hb 0
    have hearlier := fun hd hb => yield_loop_earlier_not_fatal env fuel hd hb 0
    have hinv := yield_loop_invoked env fuel 0
    obtain ⟨n, hn⟩ : ∃ n, steps (subscriber.yield_loop env fuel 0).trace =
        List.replicate n Step.yield := ⟨_, steps_eq_replicate _ _ (yield_loop_steps env fuel 0)⟩
    rw [hn] at hends hlast hearlier hinv
    rw [hS, hexit, hn]
    simp only [List.count_replicate_self, Nat.zero_add] at hends hlast hearlier
    have hcnt : (List.replicate (network_attempts env) Step.network ++
        [Step.discover, Step.connect, Step.subscribe] ++
        List.replicate n Step.yield).count Step.yield = n := by
      simp [List.count_replicate, List.count_append]
    rw [hcnt]
    refine ⟨fun code hc => ?_, fun hdown => absurd hup hdown, fun _ hne => absurd hdisc hne,
      fun _ hne => absurd hconn hne, fun _ hne => absurd hsub hne,
      fun hd hb i hi hfail => ⟨hends hd hb i hi hfail, hlast hd hb i hi hfail⟩,
      ?_, ?_, ?_, ?_, ?_, ?_, fun _ => ⟨hup, hcfg, hdisc, hconn, hsub⟩, fun _ _ _ _ _ hfuel => ?_,
      hearlier, ?_, ?_⟩
    · have h1 := hcode code hc
      subst h1
      simp
    · simp [List.count_replicate, List.count_append]
    · simp [List.count_replicate, List.count_append]
    · simp [List.count_replicate, List.count_append]
    · simp [hup, hcfg]
    · simp [hup, hcfg, hdisc]
    · simp [hup, hcfg, hdisc, hconn]
    · exact List.mem_append_right _ (hinv hfuel)
    · simp [List.mem_replicate, List.pairwise_replicate, List.pairwise_append, Step.rank]
    · simp [List.count_replicate, List.count_append]


/-- C7: for every run of the publisher `main` and of the subscriber `main` that terminates, the
exit code is never 0: it is -1 when the network connection failed, and 1 when discovery, connect,
publish, subscribe or the yield loop failed (the codes `DISCONNECTED` and `BUFFER_OVERFLOW` being
distinct from the success code). The first step that fails ends the run at once: the failing
call is the last call of the run (no later step is invoked, and a failing publish or yield is the
last publish or yield); discover, connect and subscribe are each invoked at most once; a step is
invoked exactly when every earlier step returned success (every earlier publish succeeded, no
earlier yield was fatal); and the calls made are, in this order, the network attempts, discover,
connect, then the publish calls (publisher) or subscribe and the yield calls (subscriber). -/
theorem C7_exit_codes_and_fail_fast (env : Env) (fuel : Nat) :
    ((∀ code, (publisher.main env fuel).exit_code = some code → code ≠ 0 ∧ (code = -1 ∨ code = 1)) ∧
      (¬ network_up env → (publisher.main env fuel).exit_code = some (-1) ∧
        Step.discover ∉ steps (publisher.main env fuel).trace) ∧
      (Step.discover ∈ steps (publisher.main env fuel).trace →
        env.discover_result ≠ env.codes.CY_RSLT_SUCCESS →
        (publisher.main env fuel).exit_code = some 1 ∧
        Step.connect ∉ steps (publisher.main env fuel).trace ∧
        Step.publish ∉ steps (publisher.main env fuel).trace) ∧
      (Step.connect ∈ steps (publisher.main env fuel).trace →
        env.connect_result ≠ env.codes.CY_RSLT_SUCCESS →
        (publisher.main env fuel).exit_code = some 1 ∧
        Step.publish ∉ steps (publisher.main env fuel).trace) ∧
      (∀ i, i < (steps (publisher.main env fuel).trace).count Step.publish →
        env.publish_result i ≠ env.codes.CY_RSLT_SUCCESS →
        (publisher.main env fuel).exit_code = some 1 ∧
        (steps (publisher.main env fuel).trace).count Step.publish = i + 1) ∧
      (steps (publisher.main env fuel).trace).count Step.discover ≤ 1 ∧
      (steps (publisher.main env fuel).trace).count Step.connect ≤ 1 ∧
      (Step.discover ∈ steps (publisher.main env fuel).trace ↔
        network_up env ∧ config_check_fails env.config = false) ∧
      (Step.connect ∈ steps (publisher.main env fuel).trace ↔
        network_up env ∧ config_check_fails env.config = false ∧
        env.discover_result = env.codes.CY_RSLT_SUCCESS) ∧
      (Step.publish ∈ steps (publisher.main env fuel).trace →
        network_up env ∧ config_check_fails env.config = false ∧
        env.discover_result = env.codes.CY_RSLT_SUCCESS ∧
        env.connect_result = env.codes.CY_RSLT_SUCCESS) ∧
      (network_up env → config_check_fails env.config = false →
        env.discover_result = env.codes.CY_RSLT_SUCCESS →
        env.connect_result = env.codes.CY_RSLT_SUCCESS → 0 < fuel →
        Step.publish ∈ steps (publisher.main env fuel).trace) ∧
      (∀ i, i + 1 < (steps (publisher.main env fuel).trace).count Step.publish →
        env.publish_result i = env.codes.CY_RSLT_SUCCESS) ∧
      List.Pairwise (fun a b => a.rank ≤ b.rank) (steps (publisher.main env fuel).trace) ∧
      steps (publisher.main env fuel).trace =
        List.replicate ((steps (publisher.main env fuel).trace).count Step.network) Step.network ++
        (if Step.discover ∈ steps (publisher.main env fuel).trace then [Step.discover] else []) ++
        (if Step.connect ∈ steps (publisher.main env fuel).trace then [Step.connect] else []) ++
        List.replicate ((steps (publisher.main env fuel).trace).count Step.publish) Step.publish) ∧
    ((∀ code, (subscriber.main env fuel).exit_code = some code → code ≠ 0 ∧ (code = -1 ∨ code = 1)) ∧
      (¬ network_up env → (subscriber.main env fuel).exit_code = some (-1) ∧
        Step.discover ∉ steps (subscriber.main env fuel).trace) ∧
      (Step.discover ∈ steps (subscriber.main env fuel).trace →
        env.discover_result ≠ env.codes.CY_RSLT_SUCCESS →
        (subscriber.main env fuel).exit_code = some 1 ∧
        Step.connect ∉ steps (subscriber.main env fuel).trace ∧
        Step.subscribe ∉ steps (subscriber.main env fuel).trace ∧
        Step.yield ∉ steps (subscriber.main env fuel).trace) ∧
      (Step.connect ∈ steps (subscriber.main env fuel).trace →
        env.connect_result ≠ env.codes.CY_RSLT_SUCCESS →
        (subscriber.main env fuel).exit_code = some 1 ∧
        Step.subscribe ∉ steps (subscriber.main env fuel).trace ∧
        Step.yield ∉ steps (subscriber.main env fuel).trace) ∧
      (Step.subscribe ∈ steps (subscriber.main env fuel).trace →
        env.subscribe_result ≠ env.codes.CY_RSLT_SUCCESS →
        (subscriber.main env fuel).exit_code = some 1 ∧
        Step.yield ∉ steps (subscriber.main env fuel).trace) ∧
      (env.codes.CY_RSLT_AWS_ERROR_DISCONNECTED ≠ env.codes.CY_RSLT_SUCCESS →
        env.codes.CY_RSLT_AWS_ERROR_BUFFER_OVERFLOW ≠ env.codes.CY_RSLT_SUCCESS →
        ∀ i, i < (steps (subscriber.main env fuel).trace).count Step.yield →
        (env.yield_result i = env.codes.CY_RSLT_AWS_ERROR_DISCONNECTED ∨
          env.yield_result i = env.codes.CY_RSLT_AWS_ERROR_BUFFER_OVERFLOW) →
        (subscriber.main env fuel).exit_code = some 1 ∧
        (steps (subscriber.main env fuel).trace).count Step.yield = i + 1) ∧
      (steps (subscriber.main env fuel).trace).count Step.discover ≤ 1 ∧
      (steps (subscriber.main env fuel).trace).count Step.connect ≤ 1 ∧
      (steps (subscriber.main env fuel).trace).count Step.subscribe ≤ 1 ∧
      (Step.discover ∈ steps (subscriber.main env fuel).trace ↔
        network_up env ∧ config_check_fails env.config = false) ∧
      (Step.connect ∈ steps (subscriber.main env fuel).trace ↔
        network_up env ∧ config_check_fails env.config = false ∧
        env.discover_result = env.codes.CY_RSLT_SUCCESS) ∧
      (Step.subscribe ∈ steps (subscriber.main env fuel).trace ↔
        network_up env ∧ config_check_fails env.config = false ∧
        env.discover_result = env.codes.CY_RSLT_SUCCESS ∧
        env.connect_result = env.codes.CY_RSLT_SUCCESS) ∧
      (Step.yield ∈ steps (subscriber.main env fuel).trace →
        network_up env ∧ config_check_fails env.config = false ∧
        env.discover_result = env.codes.CY_RSLT_SUCCESS ∧
        env.connect_result = env.codes.CY_RSLT_SUCCESS ∧
        env.subscribe_result = env.codes.CY_RSLT_SUCCESS) ∧
      (network_up env → config_check_fails env.config = false →
        env.discover_result = env.codes.CY_RSLT_SUCCESS →
        env.connect_result = env.codes.CY_RSLT_SUCCESS →
        env.subscribe_result = env.codes.CY_RSLT_SUCCESS → 0 < fuel →
        Step.yield ∈ steps (subscriber.main env fuel).trace) ∧
      (env.codes.CY_RSLT_AWS_ERROR_DISCONNECTED ≠ env.codes.CY_RSLT_SUCCESS →
        env.codes.CY_RSLT_AWS_ERROR_BUFFER_OVERFLOW ≠ env.codes.CY_RSLT_SUCCESS →
        ∀ i, i + 1 < (steps (subscriber.main env fuel).trace).count Step.yield →
        env.yield_result i ≠ env.codes.CY_RSLT_AWS_ERROR_DISCONNECTED ∧
        env.yield_result i ≠ env.codes.CY_RSLT_AWS_ERROR_BUFFER_OVERFLOW) ∧
      List.Pairwise (fun a b => a.rank ≤ b.rank) (steps (subscriber.main env fuel).trace) ∧
      steps (subscriber.main env fuel).trace =
        List.replicate ((steps (subscriber.main env fuel).trace).count Step.network) Step.network ++
        (if Step.discover ∈ steps (subscriber.main env fuel).trace then [Step.discover] else []) ++
        (if Step.connect ∈ steps (subscriber.main env fuel).trace then [Step.connect] else []) ++
        (if Step.subscribe ∈ steps (subscriber.main env fuel).trace then [Step.subscribe] else []) ++
        List.replicate ((steps (subscriber.main env fuel).trace).count Step.yield) Step.yield) :=
  ⟨publisher_fail_fast env fuel, subscriber_fail_fast env fuel⟩

/-- Witness of C7: in the publisher run whose second publish fails, that publish is the last call
and the exit code is 1; in the subscriber run disconnected at the third yield, that yield is the
last call and the exit code is 1; a run without network ends with -1 before discover. -/
theorem C7_witness :
    ((publisher.main example_env 7).exit_code = some 1 ∧
        (steps (publisher.main example_env 7).trace).count Step.publish = 2) ∧
      ((subscriber.main example_env 7).exit_code = some 1 ∧
        (steps (subscriber.main example_env 7).trace).count Step.yield = 3) ∧
      ((publisher.main no_network_env 7).exit_code = some (-1) ∧
        Step.discover ∉ steps (publisher.main no_network_env 7).trace) ∧
      ((subscriber.main no_network_env 7).exit_code = some (-1) ∧
        Step.discover ∉ steps (subscriber.main no_network_env 7).trace) :=
  ⟨(C7_exit_codes_and_fail_fast example_env 7).1.2.2.2.2.1 1 (by decide) (by decide),
    (C7_exit_codes_and_fail_fast example_env 7).2.2.2.2.2.2.1 (by decide) (by decide) 2 (by decide)
      (Or.inl (by decide)),
    (C7_exit_codes_and_fail_fast no_network_env 7).1.2.1 (by decide),
    (C7_exit_codes_and_fail_fast no_network_env 7).2.2.1 (by decide)⟩

theorem network_connect_loop_no_client (env : Env) (s : Int) (a b : String) (n : Nat) (c : String)
    (m : Nat) : Event.new_client a b n c m ∉ (network_connect_loop env 3 0 s).2 := by
  simp only [network_connect_loop]
  split_ifs with h0 h1 h2 <;> simp

theorem config_check_fails_iff (cfg : aws_config) :
    config_check_fails cfg = false ↔
      64 ≤ (strlen cfg.SSL_CLIENTKEY_PEM ||| strlen cfg.SSL_CLIENTCERT_PEM ||| strlen cfg.SSL_CA_PEM) := by
  simp [config_check_fails]

theorem publisher_client_mem_iff (env : Env) (fuel : Nat) (hnet : network_up env) :
    Event.new_client env.config.AWSIOT_THING_NAME env.config.SSL_CLIENTKEY_PEM
        (strlen env.config.SSL_CLIENTKEY_PEM) env.config.SSL_CLIENTCERT_PEM
        (strlen env.config.SSL_CLIENTCERT_PEM) ∈ (publisher.main env fuel).trace ↔
      config_check_fails env.config = false := by
  have hok := (network_connect_loop_status env (-1)).mpr hnet
  have hno := network_connect_loop_no_client env (-1)
  by_cases hcfg : config_check_fails env.config = true
  · simp [publisher.main, hok, hcfg, hno]
  · simp only [Bool.not_eq_true] at hcfg
    by_cases hdisc : env.discover_result = env.codes.CY_RSLT_SUCCESS
    · by_cases hconn : env.connect_result = env.codes.CY_RSLT_SUCCESS
      · simp [publisher.main, hok, hcfg, hdisc, hconn, Outcome.after]
      · simp [publisher.main, hok, hcfg, hdisc, hconn]
    · simp [publisher.main, hok, hcfg, hdisc]

theorem subscriber_client_mem_iff (env : Env) (fuel : Nat) (hnet : network_up env) :
    Event.new_client env.config.AWSIOT_THING_NAME env.config.SSL_CLIENTKEY_PEM
        (strlen env.config.SSL_CLIENTKEY_PEM) env.config.SSL_CLIENTCERT_PEM
        (strlen env.config.SSL_CLIENTCERT_PEM) ∈ (subscriber.main env fuel).trace ↔
      config_check_fails env.config = false := by
  have hok := (network_connect_loop_status env (-1)).mpr hnet
  have hno := network_connect_loop_no_client env (-1)
  by_cases hcfg : config_check_fails env.config = true
  · simp [subscriber.main, hok, hcfg, hno]
  · simp only [Bool.not_eq_true] at hcfg
    by_cases hdisc : env.discover_result = env.codes.CY_RSLT_SUCCESS
    · by_cases hconn : env.connect_result = env.codes.CY_RSLT_SUCCESS
      · by_cases hsub : env.subscribe_result = env.codes.CY_RSLT_SUCCESS
        · simp [subscriber.main, hok, hcfg, hdisc, hconn, hsub, Outcome.after]
        · simp [subscriber.main, hok, hcfg, hdisc, hconn, hsub]
      · simp [subscriber.main, hok, hcfg, hdisc, hconn]
    · simp [subscriber.main, hok, hcfg, hdisc]

theorem publisher_exit_of_short_config (env : Env) (fuel : Nat)
    (hcfg : config_check_fails env.config = true) :
    (publisher.main env fuel).exit_code = some (-1) := by
  rcases publisher_main_phases env fuel with h | h | h | h | h
  · exact h.2.1
  · exact h.2.2.1
  all_goals exact absurd h.2.1 (by simp [hcfg])

theorem subscriber_exit_of_short_config (env : Env) (fuel : Nat)
    (hcfg : config_check_fails env.config = true) :
    (subscriber.main env fuel).exit_code = some (-1) := by
  rcases subscriber_main_phases env fuel with h | h | h | h | h | h
  · exact h.2.1
  · exact h.2.2.1
  all_goals exact absurd h.2.1 (by simp [hcfg])

/-- C8: for all lengths `a`, `b`, `c` of the client key, client certificate and CA bundle strings,
once the network is connected, `main` (publisher and subscriber) goes on to create the client and
call discover if and only if the bitwise OR `a | b | c` is at least 64, which is the case if and
only if at least one of `a`, `b`, `c` is at least 64; otherwise (all three below 64) `main`
returns -1 without calling discover. -/
theorem C8_config_check_on_or_of_lengths (env : Env) (fuel : Nat) (hnet : network_up env) :
    (∀ a b c : Nat, 64 ≤ (a ||| b ||| c) ↔ (64 ≤ a ∨ 64 ≤ b ∨ 64 ≤ c)) ∧
    (config_check_fails env.config = false ↔
      64 ≤ (strlen env.config.SSL_CLIENTKEY_PEM ||| strlen env.config.SSL_CLIENTCERT_PEM |||
        strlen env.config.SSL_CA_PEM)) ∧
    (Step.discover ∈ steps (publisher.main env fuel).trace ↔
      64 ≤ (strlen env.config.SSL_CLIENTKEY_PEM ||| strlen env.config.SSL_CLIENTCERT_PEM |||
        strlen env.config.SSL_CA_PEM)) ∧
    (Step.discover ∈ steps (subscriber.main env fuel).trace ↔
      64 ≤ (strlen env.config.SSL_CLIENTKEY_PEM ||| strlen env.config.SSL_CLIENTCERT_PEM |||
        strlen env.config.SSL_CA_PEM)) ∧
    (Event.new_client env.config.AWSIOT_THING_NAME env.config.SSL_CLIENTKEY_PEM
        (strlen env.config.SSL_CLIENTKEY_PEM) env.config.SSL_CLIENTCERT_PEM
        (strlen env.config.SSL_CLIENTCERT_PEM) ∈ (publisher.main env fuel).trace ↔
      64 ≤ (strlen env.config.SSL_CLIENTKEY_PEM ||| strlen env.config.SSL_CLIENTCERT_PEM |||
        strlen env.config.SSL_CA_PEM)) ∧
    (Event.new_client env.config.AWSIOT_THING_NAME env.config.SSL_CLIENTKEY_PEM
        (strlen env.config.SSL_CLIENTKEY_PEM) env.config.SSL_CLIENTCERT_PEM
        (strlen env.config.SSL_CLIENTCERT_PEM) ∈ (subscriber.main env fuel).trace ↔
      64 ≤ (strlen env.config.SSL_CLIENTKEY_PEM ||| strlen env.config.SSL_CLIENTCERT_PEM |||
        strlen env.config.SSL_CA_PEM)) ∧
    (strlen env.config.SSL_CLIENTKEY_PEM < 64 → strlen env.config.SSL_CLIENTCERT_PEM < 64 →
      strlen env.config.SSL_CA_PEM < 64 →
      (publisher.main env fuel).exit_code = some (-1) ∧
      Step.discover ∉ steps (publisher.main env fuel).trace ∧
      (subscriber.main env fuel).exit_code = some (-1) ∧
      Step.discover ∉ steps (subscriber.main env fuel).trace) := by
  have hiff := config_check_fails_iff env.config
  have hor : ∀ a b c : Nat, 64 ≤ (a ||| b ||| c) ↔ (64 ≤ a ∨ 64 ≤ b ∨ 64 ≤ c) := by
    intro a b c
    have := lor3_lt_64_iff a b c
    constructor
    · intro h
      by_contra hcon
      simp only [not_or, not_le] at hcon
      exact absurd (this.mpr hcon) (by omega)
    · intro h
      by_contra hcon
      have h3 := this.mp (by omega)
      omega
  refine ⟨hor, hiff, ?_, ?_, ?_, ?_, ?_⟩
  · rw [publisher_discover_mem_iff, ← hiff]
    exact ⟨fun h => h.2, fun h => ⟨hnet, h⟩⟩
  · rw [subscriber_discover_mem_iff, ← hiff]
    exact ⟨fun h => h.2, fun h => ⟨hnet, h⟩⟩
  · rw [publisher_client_mem_iff env fuel hnet, hiff]
  · rw [subscriber_client_mem_iff env fuel hnet, hiff]
  · intro ha hb hc
    have hfail : config_check_fails env.config = true := by
      cases hcf : config_check_fails env.config with
      | true => rfl
      | false =>
        have h64 := hiff.mp hcf
        have := (hor _ _ _).mp h64
        omega
    refine ⟨publisher_exit_of_short_config env fuel hfail, ?_,
      subscriber_exit_of_short_config env fuel hfail, ?_⟩
    · rw [publisher_discover_mem_iff]
      intro h
      simp [hfail] at h
    · rw [subscriber_discover_mem_iff]
      intro h
      simp [hfail] at h

/-- Witness of C8: with secrets of 63, 5 and 0 characters the OR of the lengths is 63 and both
programs return -1 without calling discover; with secrets of 64 characters discover is called. -/
theorem C8_witness :
    ((publisher.main short_config_env 1).exit_code = some (-1) ∧
      Step.discover ∉ steps (publisher.main short_config_env 1).trace ∧
      (subscriber.main short_config_env 1).exit_code = some (-1) ∧
      Step.discover ∉ steps (subscriber.main short_config_env 1).trace) ∧
    Step.discover ∈ steps (publisher.main example_env 1).trace :=
  ⟨(C8_config_check_on_or_of_lengths short_config_env 1 ⟨0, by decide, by decide⟩).2.2.2.2.2.2
      (by decide) (by decide) (by decide),
    (C8_config_check_on_or_of_lengths example_env 1 ⟨2, by decide, by decide⟩).2.2.1.mpr (by decide)⟩
